import Mathlib

/-!
Verification development for the template-driven journal expansion and posting
pipeline (enhanced_system/python: expr.py, templates.py, engine.py, posting.py,
balances.py).  The Python source is shallowly embedded: pure pieces become Lean
functions, raised exceptions become `Except` errors, Python/Polars floats become
`Rat`, dataframes become lists of records.  Error constructors are named after
the abstract error kinds of the design documentation; the concrete Python
exception classes they correspond to are noted at each raise site.
-/

namespace Revamp

/-! ## Expression compiler, string layer (expr.py, `to_polars`)

`to_polars` in expr.py takes an expression string and the set of dataframe
columns.  It strips the string, checks every character against an allow-list,
scans for sigil tokens `:name` (rejecting names outside `df_cols`),
substitutes each token by a Polars column reference, rewrites the function
names abs/min/max/round, and finally hands the resulting code string to the
Python `eval` builtin.  The model below reproduces everything up to (and
excluding) that final `eval` call: the `.ok` value is the generated Python
code string that the source passes to `eval`.  The `eval` step itself is not
modelled (it executes arbitrary Python reachable from the allowed character
set; see the C3 analysis). -/

/-- Characters allowed by the sanity regex in expr.py line 19:
`[0-9\.\s\+\-\*\/\(\),:_a-zA-Z]`.  `Char.isWhitespace` stands for the
regex class for whitespace and `Char.isAlpha` for the ASCII letter ranges. -/
def allowedChar (c : Char) : Bool :=
  c.isDigit || c = '.' || c.isWhitespace || c = '+' || c = '-' || c = '*' || c = '/' ||
  c = '(' || c = ')' || c = ',' || c = ':' || c = '_' || c.isAlpha

/-- Python `str.strip()`: drop leading and trailing whitespace. -/
def pyStrip (s : String) : String :=
  ⟨((s.data.dropWhile Char.isWhitespace).reverse.dropWhile Char.isWhitespace).reverse⟩

/-- The regex `fullmatch` of `[...]+` on the stripped string: non-empty and
every character allowed. -/
def charsOk (l : List Char) : Bool :=
  !l.isEmpty && l.all allowedChar

/-- First character of a sigil token name: `[a-zA-Z_]` (expr.py line 12). -/
def identStart (c : Char) : Bool :=
  c.isAlpha || c = '_'

/-- Subsequent token-name characters: `[a-zA-Z0-9_]`. -/
def identChar (c : Char) : Bool :=
  identStart c || c.isDigit

instance {ε α : Type} [DecidableEq ε] [DecidableEq α] : DecidableEq (Except ε α) := fun x y =>
  match x, y with
  | .ok a, .ok b =>
    if h : a = b then .isTrue (by rw [h]) else .isFalse (fun hc => by cases hc; exact h rfl)
  | .ok _, .error _ => .isFalse (fun hc => by cases hc)
  | .error _, .ok _ => .isFalse (fun hc => by cases hc)
  | .error e, .error f =>
    if h : e = f then .isTrue (by rw [h]) else .isFalse (fun hc => by cases hc; exact h rfl)

/-- Fuel-bounded scan for all matches of the token regex
`:([a-zA-Z_][a-zA-Z0-9_]*)`, in scan order (re.finditer: leftmost,
non-overlapping, maximal identifier run).  Each step consumes at least one
character, so fuel = length + 1 always suffices. -/
def findTokensF : Nat → List Char → List String
  | 0, _ => []
  | _ + 1, [] => []
  | fuel + 1, ':' :: rest =>
    match rest with
    | [] => []
    | c :: rest2 =>
      if identStart c then
        String.mk (c :: rest2.takeWhile identChar) :: findTokensF fuel (rest2.dropWhile identChar)
      else findTokensF fuel (c :: rest2)
  | fuel + 1, _ :: rest => findTokensF fuel rest

/-- All names matched by the token regex, in scan order. -/
def findTokens (l : List Char) : List String :=
  findTokensF (l.length + 1) l

/-- A single-quote character, used by the generated `pl.col` call. -/
def sq : String :=
  String.singleton (Char.ofNat 39)

/-- Fuel-bounded token substitution (expr.py lines 23-33): replace each
`:name` match by the text of a Polars column reference, keep everything
else. -/
def substTokensF : Nat → List Char → String
  | 0, _ => ""
  | _ + 1, [] => ""
  | fuel + 1, ':' :: rest =>
    match rest with
    | [] => ":"
    | c :: rest2 =>
      if identStart c then
        "pl.col(" ++ sq ++ String.mk (c :: rest2.takeWhile identChar) ++ sq ++ ")" ++
          substTokensF fuel (rest2.dropWhile identChar)
      else ":" ++ substTokensF fuel (c :: rest2)
  | fuel + 1, c :: rest => String.singleton c ++ substTokensF fuel rest

/-- Token substitution over a whole character list. -/
def substTokens (l : List Char) : String :=
  substTokensF (l.length + 1) l

/-- Decidable prefix test on character lists. -/
def isPre : List Char → List Char → Bool
  | [], _ => true
  | _ :: _, [] => false
  | p :: ps, c :: cs => p = c && isPre ps cs

/-- Fuel-bounded left-to-right replacement of every non-overlapping
occurrence of `pat` by `rep`, the semantics of Python `str.replace` (and of
`re.sub` with a literal pattern). -/
def listReplace (pat rep : List Char) : Nat → List Char → List Char
  | 0, l => l
  | _ + 1, [] => []
  | fuel + 1, c :: rest =>
    if isPre pat (c :: rest) then rep ++ listReplace pat rep fuel ((c :: rest).drop pat.length)
    else c :: listReplace pat rep fuel rest

/-- String-level wrapper for `listReplace`. -/
def strReplace (s pat rep : String) : String :=
  String.mk (listReplace pat.data rep.data (s.data.length + 1) s.data)

/-- Function-name rewriting (expr.py lines 36-43): textual replacement of
every occurrence, exactly as `str.replace` / `re.sub` do in the source. -/
def mapFuncs (code : String) : String :=
  strReplace (strReplace (strReplace (strReplace code ("abs(") ("pl.abs("))
    ("min(") ("pl.min_horizontal(")) ("max(") ("pl.max_horizontal(")) ("round(") ("pl.round(")

/-- Compile-time failures of `to_polars`.  `illegalExpression` is the
`ValueError` of expr.py line 20 (named IllegalExpressionError in the design
documents), `unknownField` the `KeyError` of line 29 (UnknownFieldError). -/
inductive CompileError where
  | illegalExpression
  | unknownField (name : String)
deriving DecidableEq, Repr

/-- Model of `to_polars` (expr.py lines 14-47) up to the final `eval` call:
the `.ok` result is the Python code string that the source would hand to
`eval(code, defaultns, emptyns)`.  Both error paths fire before any evaluation
and before any transaction data is touched (`to_polars` never receives data;
compiled expressions are applied to the batch later, in engine.py). -/
def to_polars (expr : String) (df_cols : List String) : Except CompileError String :=
  let s := pyStrip expr
  if !charsOk s.data then .error .illegalExpression
  else
    match (findTokens s.data).find? (fun n => !df_cols.contains n) with
    | some n => .error (.unknownField n)
    | none => .ok (mapFuncs (substTokens s.data))

/-! ## The closed expression grammar of the specification

Second definition for the refinement comparison of claim C3.  It follows the
specification's words: the grammar is closed over numeric literals, sigil
references to known fields, parentheses, the operators `+ - * /`, and the
named functions `abs(x)`, `min(a,b)`, `max(a,b)`, `round(x,n)` (a leading
unary minus is accepted generously; a more permissive acceptor only
strengthens a rejection result).  The acceptor is fuel-bounded; fuel is an
upper bound on recursion depth and is instantiated amply below. -/

inductive GTok where
  | num
  | field (name : String)
  | ident (name : String)
  | lparen
  | rparen
  | comma
  | plus
  | minus
  | star
  | slash
deriving DecidableEq, Repr

/-- Tokenizer for the specification grammar: numeric literals (digits with at
most one dot), field references `:name`, identifiers, parentheses, commas and
the four arithmetic operators; anything else fails. -/
def gTokenizeF : Nat → List Char → Option (List GTok)
  | 0, _ => none
  | _ + 1, [] => some []
  | fuel + 1, c :: rest =>
    if c.isWhitespace then gTokenizeF fuel rest
    else if c.isDigit then
      let body := rest.takeWhile (fun x => x.isDigit || x = '.')
      if ((c :: body).filter (fun x => x = '.')).length ≤ 1 then
        (gTokenizeF fuel (rest.dropWhile (fun x => x.isDigit || x = '.'))).map
          (fun l => GTok.num :: l)
      else none
    else if c = ':' then
      match rest with
      | [] => none
      | d :: r2 =>
        if identStart d then
          (gTokenizeF fuel (r2.dropWhile identChar)).map
            (fun l => GTok.field (String.mk (d :: r2.takeWhile identChar)) :: l)
        else none
    else if identStart c then
      (gTokenizeF fuel (rest.dropWhile identChar)).map
        (fun l => GTok.ident (String.mk (c :: rest.takeWhile identChar)) :: l)
    else if c = '(' then (gTokenizeF fuel rest).map (fun l => GTok.lparen :: l)
    else if c = ')' then (gTokenizeF fuel rest).map (fun l => GTok.rparen :: l)
    else if c = ',' then (gTokenizeF fuel rest).map (fun l => GTok.comma :: l)
    else if c = '+' then (gTokenizeF fuel rest).map (fun l => GTok.plus :: l)
    else if c = '-' then (gTokenizeF fuel rest).map (fun l => GTok.minus :: l)
    else if c = '*' then (gTokenizeF fuel rest).map (fun l => GTok.star :: l)
    else if c = '/' then (gTokenizeF fuel rest).map (fun l => GTok.slash :: l)
    else none

mutual

/-- One operand: a numeric literal, a known field reference, a unary minus, a
parenthesised expression, or one of the four named functions with its arity. -/
def gAtom (known : List String) : Nat → List GTok → Option (List GTok)
  | 0, _ => none
  | fuel + 1, ts =>
    match ts with
    | GTok.num :: r => some r
    | GTok.field n :: r => if known.contains n then some r else none
    | GTok.minus :: r => gAtom known fuel r
    | GTok.lparen :: r =>
      match gSeq known fuel r with
      | some (GTok.rparen :: r2) => some r2
      | _ => none
    | GTok.ident f :: GTok.lparen :: r =>
      if f = "abs" then
        match gSeq known fuel r with
        | some (GTok.rparen :: r2) => some r2
        | _ => none
      else if f = "min" || f = "max" || f = "round" then
        match gSeq known fuel r with
        | some (GTok.comma :: r2) =>
          match gSeq known fuel r2 with
          | some (GTok.rparen :: r3) => some r3
          | _ => none
        | _ => none
      else none
    | _ => none

/-- An expression: an operand followed by a sequence of operator-operand
pairs (precedence does not change the accepted language). -/
def gSeq (known : List String) : Nat → List GTok → Option (List GTok)
  | 0, _ => none
  | fuel + 1, ts =>
    match gAtom known fuel ts with
    | none => none
    | some r => gOps known fuel r

/-- The operator-operand tail of an expression. -/
def gOps (known : List String) : Nat → List GTok → Option (List GTok)
  | 0, _ => none
  | fuel + 1, ts =>
    match ts with
    | GTok.plus :: r =>
      match gAtom known fuel r with
      | none => none
      | some r2 => gOps known fuel r2
    | GTok.minus :: r =>
      match gAtom known fuel r with
      | none => none
      | some r2 => gOps known fuel r2
    | GTok.star :: r =>
      match gAtom known fuel r with
      | none => none
      | some r2 => gOps known fuel r2
    | GTok.slash :: r =>
      match gAtom known fuel r with
      | none => none
      | some r2 => gOps known fuel r2
    | _ => some ts

end

/-- Acceptance by the specification's closed grammar: the string tokenizes
and parses as one complete expression over the known fields. -/
def specGrammarAccepts (s : String) (known : List String) : Bool :=
  match gTokenizeF (s.length + 1) s.data with
  | none => false
  | some ts =>
    match gSeq known (8 * (ts.length + 1)) ts with
    | some [] => true
    | _ => false

example : specGrammarAccepts "abs(:x) + 1.5 * min(:x, 2)" ["x"] = true := by decide
example : specGrammarAccepts "9**9" ["x"] = false := by decide
example : to_polars "9**9" ["x"] = .ok "9**9" := by decide
example : to_polars ":channel > 0" ["channel"] = .error .illegalExpression := by decide
example : to_polars ":foo + 1" ["bar"] = .error (.unknownField ("foo")) := by decide

/-! ## Dates, values and compiled Polars expressions

Compiled expressions (the objects `to_polars` builds through `eval` for
grammar-conforming inputs) are modelled as an expression tree `PExpr`
evaluated per row against a named environment; Polars evaluates them
columnar, which for deterministic expressions over a uniform schema yields
the same value row by row.  Cell values are `Val`; Polars null propagation is
modelled where the claims need it, and operations Polars rejects at the dtype
level become `typeMismatch` errors. -/

structure Date where
  year : Nat
  month : Nat
  day : Nat
deriving DecidableEq, Repr

/-- Numeric encoding giving the calendar order used by the SQL date
comparisons (valid dates have month and day below 100). -/
def Date.code (d : Date) : Nat :=
  d.year * 10000 + d.month * 100 + d.day

def Date.le (a b : Date) : Bool :=
  a.code ≤ b.code

def Date.lt (a b : Date) : Bool :=
  a.code < b.code

/-- Zero-padded decimal rendering, as strftime does. -/
def padNat (width n : Nat) : String :=
  let s := toString n
  String.mk (List.replicate (width - s.length) '0') ++ s

/-- The strftime format string of engine.py line 25 applied to a date. -/
def yyyymm (d : Date) : String :=
  padNat 4 d.year ++ padNat 2 d.month

/-- Errors raised during template resolution and expansion.
`noActiveTemplate` is the RuntimeError of templates.py line 21
(NoActiveTemplateError); `unbalancedJournal` the ValueError of engine.py
line 110 (UnbalancedJournalError); `columnNotFound` and `typeMismatch` are
the Polars runtime errors for a reference to a column absent from the frame
and for an operation unsupported on the operand dtypes. -/
inductive ExpandError where
  | noActiveTemplate
  | unbalancedJournal
  | columnNotFound (name : String)
  | typeMismatch
deriving DecidableEq, Repr

/-- A cell value: number (Polars floats as rationals), string, boolean, date,
or null. -/
inductive Val where
  | num (q : ℚ)
  | str (s : String)
  | bool (b : Bool)
  | vdate (d : Date)
  | null
deriving DecidableEq, Repr

/-- Compiled Polars expressions reachable from `to_polars` output: numeric
and boolean literals (Python True/False pass the character check and evaluate
to booleans), column references, `+ - * /`, `&` (the AND combination of
engine.py line 59), and the four mapped functions. -/
inductive PExpr where
  | lit (q : ℚ)
  | litB (b : Bool)
  | col (name : String)
  | add (a b : PExpr)
  | sub (a b : PExpr)
  | mul (a b : PExpr)
  | div (a b : PExpr)
  | pand (a b : PExpr)
  | pabs (a : PExpr)
  | minH (a b : PExpr)
  | maxH (a b : PExpr)
  | roundE (a : PExpr) (n : Nat)
deriving DecidableEq, Repr

/-- Polars `+`: numeric addition, string concatenation (engine.py line 26
relies on it), null propagation; other dtype combinations error. -/
def addV : Val → Val → Except ExpandError Val
  | .num a, .num b => .ok (.num (a + b))
  | .str a, .str b => .ok (.str (a ++ b))
  | .null, .num _ => .ok .null
  | .num _, .null => .ok .null
  | .null, .str _ => .ok .null
  | .str _, .null => .ok .null
  | .null, .null => .ok .null
  | _, _ => .error .typeMismatch

/-- Polars numeric binary operation with null propagation.  Division by zero
follows the Rat convention rather than the float infinity; no claim depends
on that corner. -/
def arithV (f : ℚ → ℚ → ℚ) : Val → Val → Except ExpandError Val
  | .num a, .num b => .ok (.num (f a b))
  | .null, .num _ => .ok .null
  | .num _, .null => .ok .null
  | .null, .null => .ok .null
  | _, _ => .error .typeMismatch

/-- Polars `&`: boolean conjunction with null propagation; defined only on
boolean (or null) operands. -/
def andV : Val → Val → Except ExpandError Val
  | .bool a, .bool b => .ok (.bool (a && b))
  | .null, .bool _ => .ok .null
  | .bool _, .null => .ok .null
  | .null, .null => .ok .null
  | _, _ => .error .typeMismatch

/-- Absolute value on numbers, null passthrough. -/
def absV : Val → Except ExpandError Val
  | .num a => .ok (.num |a|)
  | .null => .ok .null
  | _ => .error .typeMismatch

/-- Polars min_horizontal: pointwise minimum ignoring nulls. -/
def minHV : Val → Val → Except ExpandError Val
  | .num a, .num b => .ok (.num (min a b))
  | .null, .num b => .ok (.num b)
  | .num a, .null => .ok (.num a)
  | .null, .null => .ok .null
  | _, _ => .error .typeMismatch

/-- Polars max_horizontal: pointwise maximum ignoring nulls. -/
def maxHV : Val → Val → Except ExpandError Val
  | .num a, .num b => .ok (.num (max a b))
  | .null, .num b => .ok (.num b)
  | .num a, .null => .ok (.num a)
  | .null, .null => .ok .null
  | _, _ => .error .typeMismatch

/-- Round half away from zero, the float rounding Polars applies. -/
def halfAway (x : ℚ) : ℤ :=
  if 0 ≤ x then ⌊x + 1 / 2⌋ else -⌊-x + 1 / 2⌋

/-- Rounding to `n` decimal places. -/
def roundTo (n : Nat) (q : ℚ) : ℚ :=
  (halfAway (q * 10 ^ n) : ℚ) / 10 ^ n

/-- Polars `.round(n)`: numbers round, nulls pass, other dtypes error. -/
def roundV (n : Nat) : Val → Except ExpandError Val
  | .num q => .ok (.num (roundTo n q))
  | .null => .ok .null
  | _ => .error .typeMismatch

/-- Row-wise evaluation of a compiled expression against a named
environment; `none` from the environment is a missing column. -/
def evalP (env : String → Option Val) : PExpr → Except ExpandError Val
  | .lit q => .ok (.num q)
  | .litB b => .ok (.bool b)
  | .col n =>
    match env n with
    | some v => .ok v
    | none => .error (.columnNotFound n)
  | .add a b => do addV (← evalP env a) (← evalP env b)
  | .sub a b => do arithV (fun x y => x - y) (← evalP env a) (← evalP env b)
  | .mul a b => do arithV (fun x y => x * y) (← evalP env a) (← evalP env b)
  | .div a b => do arithV (fun x y => x / y) (← evalP env a) (← evalP env b)
  | .pand a b => do andV (← evalP env a) (← evalP env b)
  | .pabs a => do absV (← evalP env a)
  | .minH a b => do minHV (← evalP env a) (← evalP env b)
  | .maxH a b => do maxHV (← evalP env a) (← evalP env b)
  | .roundE a n => do roundV n (← evalP env a)

/-! ## Template repository (templates.py, `load_active_template`)

The template store is modelled as lists of rows for the five tables read by
templates.py.  Line amount expressions and condition expressions are carried
as already-compiled `PExpr` trees: the source stores strings and compiles
them with `to_polars` inside the engine loop; the string-level checks of that
compiler are modelled above, and the Python `eval` bridge between the two
layers is exactly the part that cannot be modelled (see C3). -/

structure TemplateLine where
  line_no : Nat
  side : String
  account_code : String
  fund_code : String
  amount_expr : PExpr
  amount_round : Nat
  is_active : Bool
deriving DecidableEq, Repr

structure TemplateCond where
  line_no : Nat
  cond_name : String
  cond_expr : PExpr
deriving DecidableEq, Repr

structure TemplateControl where
  require_balanced : Bool
  tolerance_amount : ℚ
  balancing_mode : String
  balancing_account : Option String
  balancing_fund : Option String
deriving DecidableEq, Repr

/-- The loaded template bundle returned by `load_active_template`. -/
structure Template where
  template_code : String
  template_version : String
  lines : List TemplateLine
  conds : List TemplateCond
  control : TemplateControl
deriving DecidableEq, Repr

/-- One row of acct.journal_template. -/
structure TemplateRow where
  template_code : String
  template_version : String
  txn_type : String
  status : String
  effective_date : Date
  expiry_date : Date
deriving DecidableEq, Repr

/-- One row of acct.journal_template_match. -/
structure MatchRow where
  match_id : Nat
  template_code : String
  template_version : String
  product_code : Option String
  channel : Option String
  priority : Int
deriving DecidableEq, Repr

structure TemplateLineRow where
  template_code : String
  template_version : String
  line : TemplateLine
deriving DecidableEq, Repr

structure TemplateCondRow where
  template_code : String
  template_version : String
  cond : TemplateCond
deriving DecidableEq, Repr

structure TemplateControlRow where
  template_code : String
  template_version : String
  control : TemplateControl
deriving DecidableEq, Repr

structure TemplateDB where
  templates : List TemplateRow
  matchRows : List MatchRow
  lineRows : List TemplateLineRow
  condRows : List TemplateCondRow
  controlRows : List TemplateControlRow
deriving DecidableEq, Repr

/-- SQL equality `a = b` under three-valued logic as used in a WHERE clause:
true only when both sides are non-null and equal. -/
def sqlEqStr (a b : Option String) : Bool :=
  match a, b with
  | some x, some y => x = y
  | _, _ => false

/-- The WHERE clause of the matching query (templates.py lines 10-13). -/
def matchPred (tt : String) (p ch : Option String) (d : Date) (r : TemplateRow × MatchRow) : Bool :=
  r.1.txn_type = tt && r.1.status = "ACTIVE" &&
  Date.le r.1.effective_date d && Date.lt d r.1.expiry_date &&
  (sqlEqStr r.2.product_code p || r.2.product_code.isNone) &&
  (sqlEqStr r.2.channel ch || r.2.channel.isNone)

/-- The join of acct.journal_template and acct.journal_template_match on
(template_code, template_version), filtered by the WHERE clause. -/
def matchesFor (db : TemplateDB) (tt : String) (p ch : Option String) (d : Date) :
    List (TemplateRow × MatchRow) :=
  ((db.templates.map (fun t =>
      (db.matchRows.filter (fun m =>
        m.template_code = t.template_code && m.template_version = t.template_version)).map
        (fun m => (t, m)))).flatten).filter (matchPred tt p ch d)

/-- The ORDER BY key of templates.py line 14 —
`m.priority ASC, (m.product_code IS NULL)::int, (m.channel IS NULL)::int` —
encoded as a single integer; the encoding is order-isomorphic to the
lexicographic triple because the two null flags lie in {0, 1}. -/
def orderKey (r : TemplateRow × MatchRow) : ℤ :=
  4 * r.2.priority + 2 * (if r.2.product_code.isNone then 1 else 0) +
    (if r.2.channel.isNone then 1 else 0)

/-- Insertion into a list sorted by line_no. -/
def insertByLineNo (x : TemplateLine) : List TemplateLine → List TemplateLine
  | [] => [x]
  | y :: ys => if x.line_no ≤ y.line_no then x :: y :: ys else y :: insertByLineNo x ys

/-- Insertion sort by line_no, modelling the ORDER BY line_no of the line
query (templates.py line 31). -/
def sortByLineNo : List TemplateLine → List TemplateLine
  | [] => []
  | x :: xs => insertByLineNo x (sortByLineNo xs)

/-- Default control record used when the control table has no row for the
template (templates.py lines 56-58). -/
def defaultControl : TemplateControl :=
  { require_balanced := true
    tolerance_amount := 1 / 100
    balancing_mode := "ERROR"
    balancing_account := none
    balancing_fund := none }

/-- Loading lines, conditions and control for a resolved template
(templates.py lines 24-59). -/
def bundleFor (db : TemplateDB) (tc tv : String) : Template :=
  { template_code := tc
    template_version := tv
    lines := sortByLineNo ((db.lineRows.filter (fun r =>
      r.template_code = tc && r.template_version = tv)).map (·.line))
    conds := (db.condRows.filter (fun r =>
      r.template_code = tc && r.template_version = tv)).map (·.cond)
    control :=
      match db.controlRows.find? (fun r =>
        r.template_code = tc && r.template_version = tv) with
      | some r => r.control
      | none => defaultControl }

/-- First minimiser of `f` in a list: ORDER BY f ASC followed by LIMIT 1,
with the first row winning ties. -/
def pickMin (f : α → ℤ) : List α → Option α
  | [] => none
  | x :: xs =>
    match pickMin f xs with
    | none => some x
    | some y => if f x ≤ f y then some x else some y

/-- Model of `load_active_template` (templates.py lines 4-59): run the
matching query, order by `orderKey` and take the first row, then load the
bundle; no row raises RuntimeError (NoActiveTemplateError). -/
def load_active_template (db : TemplateDB) (tt : String) (p ch : Option String) (d : Date) :
    Except ExpandError Template :=
  match pickMin orderKey (matchesFor db tt p ch d) with
  | none => .error .noActiveTemplate
  | some r => .ok (bundleFor db r.1.template_code r.1.template_version)

/-! ## Journal expansion engine (engine.py, `expand_transactions`)

A transaction batch is a list of `Txn` rows with the columns of engine.py
line 9-10.  The run identifier (a UUID in the source, its only
non-determinism) is passed as a parameter.  Dataframe stages become list
pipelines; Polars runtime errors propagate as `Except` errors, which also
gives the all-or-nothing behaviour of a raised exception. -/

structure Txn where
  source_rowid : String
  txn_type : String
  product_code : Option String
  channel : Option String
  bank_value_date : Date
  gross_amount : ℚ
  tabarru_amount : ℚ
  tanahud_amount : ℚ
  invest_amount : ℚ
  ujroh_amount : ℚ
  admin_amount : ℚ
deriving DecidableEq, Repr

/-- The deterministic journal entry number of engine.py lines 24-28:
"JE-" + strftime yyyymm of the value date + "-" + source_rowid. -/
def jeNumber (t : Txn) : String :=
  "JE-" ++ yyyymm t.bank_value_date ++ "-" ++ t.source_rowid

def optStrVal : Option String → Val
  | some s => .str s
  | none => .null

/-- The columns of the expanded transaction frame (after engine.py lines
24-28 added je_number and je_date); this is the `df_cols` set amount and
condition expressions are compiled against. -/
def txnEnv (t : Txn) (name : String) : Option Val :=
  if name = "source_rowid" then some (.str t.source_rowid)
  else if name = "txn_type" then some (.str t.txn_type)
  else if name = "product_code" then some (optStrVal t.product_code)
  else if name = "channel" then some (optStrVal t.channel)
  else if name = "bank_value_date" then some (.vdate t.bank_value_date)
  else if name = "gross_amount" then some (.num t.gross_amount)
  else if name = "tabarru_amount" then some (.num t.tabarru_amount)
  else if name = "tanahud_amount" then some (.num t.tanahud_amount)
  else if name = "invest_amount" then some (.num t.invest_amount)
  else if name = "ujroh_amount" then some (.num t.ujroh_amount)
  else if name = "admin_amount" then some (.num t.admin_amount)
  else if name = "je_number" then some (.str (jeNumber t))
  else if name = "je_date" then some (.vdate t.bank_value_date)
  else none

structure Header where
  je_number : String
  je_date : Date
  je_type : String
  source_rowid : String
  template_code : String
  template_version : String
  run_id : String
  created_by : String
deriving DecidableEq, Repr

/-- A row of the per-line base frame built by engine.py lines 63-72, before
the template/run columns are attached. -/
structure LineCore where
  je_number : String
  line_no : Nat
  side : String
  account_code : String
  fund : String
  amount : ℚ
  product_code : Option String
  channel : Option String
  je_date : Date
deriving DecidableEq, Repr

/-- A finished journal line (after engine.py lines 90-94 attached
template_code, template_version and run_id). -/
structure Line where
  je_number : String
  line_no : Nat
  side : String
  account_code : String
  fund : String
  amount : ℚ
  product_code : Option String
  channel : Option String
  je_date : Date
  template_code : String
  template_version : String
  run_id : String
deriving DecidableEq, Repr

def mkHeader (tpl : Template) (created_by rid : String) (t : Txn) : Header :=
  { je_number := jeNumber t
    je_date := t.bank_value_date
    je_type := "JE"
    source_rowid := t.source_rowid
    template_code := tpl.template_code
    template_version := tpl.template_version
    run_id := rid
    created_by := created_by }

def mkLineCore (rec : TemplateLine) (t : Txn) (amt : ℚ) : LineCore :=
  { je_number := jeNumber t
    line_no := rec.line_no
    side := rec.side
    account_code := rec.account_code
    fund := rec.fund_code
    amount := amt
    product_code := t.product_code
    channel := t.channel
    je_date := t.bank_value_date }

def attachTpl (tpl : Template) (rid : String) (c : LineCore) : Line :=
  { je_number := c.je_number
    line_no := c.line_no
    side := c.side
    account_code := c.account_code
    fund := c.fund
    amount := c.amount
    product_code := c.product_code
    channel := c.channel
    je_date := c.je_date
    template_code := tpl.template_code
    template_version := tpl.template_version
    run_id := rid }

/-- The columns of the base frame (engine.py lines 63-72), the frame on
which condition masks are evaluated and filtered (line 81).  Columns of the
transaction frame that were not selected into the base frame are absent, so
a condition referencing them fails with a column-not-found error. -/
def condEnv (rec : TemplateLine) (t : Txn) (amt : Val) (name : String) : Option Val :=
  if name = "je_number" then some (.str (jeNumber t))
  else if name = "line_no" then some (.num rec.line_no)
  else if name = "side" then some (.str rec.side)
  else if name = "account_code" then some (.str rec.account_code)
  else if name = "fund" then some (.str rec.fund_code)
  else if name = "amount" then some amt
  else if name = "product_code" then some (optStrVal t.product_code)
  else if name = "channel" then some (optStrVal t.channel)
  else if name = "je_date" then some (.vdate t.bank_value_date)
  else none

/-- Columnar evaluation over a list of rows: the error of a failing Polars
expression aborts the whole frame operation. -/
def exMap (f : α → Except ExpandError β) : List α → Except ExpandError (List β)
  | [] => .ok []
  | a :: l =>
    match f a with
    | .error e => .error e
    | .ok b =>
      match exMap f l with
      | .error e => .error e
      | .ok bs => .ok (b :: bs)

/-- The filter comparison `pl.col(mask) == True` of engine.py line 81:
booleans compare, null compares to null (falsy, row dropped), any other
dtype is a comparison error. -/
def eqTrueLit : Val → Except ExpandError Bool
  | .bool b => .ok b
  | .null => .ok false
  | _ => .error .typeMismatch

/-- Conditions attached to one template line (engine.py line 75). -/
def condsFor (tpl : Template) (rec : TemplateLine) : List TemplateCond :=
  tpl.conds.filter (fun c => c.line_no = rec.line_no)

/-- AND-combination of the compiled conditions (engine.py lines 78-80):
`cond_all = exprs[0]` then `cond_all = cond_all & e` over the rest. -/
def foldAnd (c : TemplateCond) (cs : List TemplateCond) : PExpr :=
  cs.foldl (fun acc x => PExpr.pand acc x.cond_expr) c.cond_expr

/-- Conditional enablement filter (engine.py lines 73-81): when the line has
conditions, evaluate the AND-combined mask over the base frame, keep the
rows where the mask compares equal to True, drop the mask column. -/
def condFilter (tpl : Template) (rec : TemplateLine) (base : List (Txn × Val)) :
    Except ExpandError (List (Txn × Val)) :=
  match condsFor tpl rec with
  | [] => .ok base
  | c :: rest =>
    match exMap (fun tv =>
        ((evalP (condEnv rec tv.1 tv.2) (foldAnd c rest)).bind eqTrueLit).map
          (fun b => (tv, b))) base with
    | .error e => .error e
    | .ok withMask => .ok ((withMask.filter (fun x => x.2)).map (fun x => x.1))

def nonZeroV : Val → Bool
  | .num q => q ≠ 0
  | _ => false

def amtQ : Val → ℚ
  | .num q => q
  | _ => 0

/-- One active template line's frame (engine.py lines 47-86): evaluate the
amount expression over the whole batch, apply the condition filter, round
the amount to the line's precision (`.round`, line 84), and drop rows whose
rounded amount is exactly zero (line 85; a null amount also fails the
`!= 0` filter under SQL-style null comparison). -/
def buildLineFrame (tpl : Template) (txns : List Txn) (rec : TemplateLine) :
    Except ExpandError (List LineCore) :=
  match exMap (fun t => (evalP (txnEnv t) rec.amount_expr).map (fun v => (t, v))) txns with
  | .error e => .error e
  | .ok base =>
    match condFilter tpl rec base with
    | .error e => .error e
    | .ok base2 =>
      match exMap (fun tv => (roundV rec.amount_round tv.2).map (fun v => (tv.1, v))) base2 with
      | .error e => .error e
      | .ok rounded =>
        .ok ((rounded.filter (fun tv => nonZeroV tv.2)).map
          (fun tv => mkLineCore rec tv.1 (amtQ tv.2)))

/-- All per-line frames: the loop of engine.py line 44 appends one frame for
every active template line and skips inactive ones (line 45). -/
def buildAllLineFrames (tpl : Template) (txns : List Txn) :
    Except ExpandError (List (List LineCore)) :=
  exMap (buildLineFrame tpl txns) (tpl.lines.filter (·.is_active))

/-- The three columns the balance check reads from a line. -/
def keyOf (l : Line) : String × String × ℚ :=
  (l.je_number, l.side, l.amount)

/-- Sum of amounts for one header number and side (the group_by/agg of
engine.py lines 100-102). -/
def sideSumK (keys : List (String × String × ℚ)) (je s : String) : ℚ :=
  ((keys.filter (fun k => k.1 = je && k.2.1 = s)).map (fun k => k.2.2)).sum

/-- The per-header difference DR − CR, with an absent side contributing 0
(the pivot's fill_null(0), engine.py line 105). -/
def jeDiffK (keys : List (String × String × ℚ)) (je : String) : ℚ :=
  sideSumK keys je "DR" - sideSumK keys je "CR"

/-- The distinct values of a list, modelling the group_by key set; order is
irrelevant to the maximum taken over it. -/
def dedupKeys : List String → List String
  | [] => []
  | x :: xs =>
    let r := dedupKeys xs
    if x ∈ r then r else x :: r

/-- `abs(by_je.select(_diff.abs().max()).item())` (engine.py line 108): the
maximum absolute difference over the headers occurring in the line set. -/
def maxAbsDiff (keys : List (String × String × ℚ)) : ℚ :=
  |((dedupKeys (keys.map (fun k => k.1))).map (fun je => |jeDiffK keys je|)).foldl max 0|

/-- The balance validation of engine.py lines 97-110.  It runs only when the
control requires balancing and the line set is non-empty.  The pivot on
`side` creates one column per side value actually present, so `pl.col("DR")`
(resp. "CR") raises a column-not-found error when no line of that side
occurs; otherwise the maximal absolute header difference is compared against
the tolerance and a ValueError (UnbalancedJournalError) is raised when it
exceeds it. -/
def balanceCheckK (ctrl : TemplateControl) (keys : List (String × String × ℚ)) :
    Except ExpandError Unit :=
  if ctrl.require_balanced && !keys.isEmpty then
    let sides := keys.map (fun k => k.2.1)
    if "DR" ∉ sides then .error (.columnNotFound ("DR"))
    else if "CR" ∉ sides then .error (.columnNotFound ("CR"))
    else if ctrl.tolerance_amount < maxAbsDiff keys then .error .unbalancedJournal
    else .ok ()
  else .ok ()

/-- Model of `expand_transactions` (engine.py lines 7-112).  The run_id (a
fresh UUID in the source, its only non-determinism) is a parameter.  An
empty batch returns empty frames without resolving a template (line 16).
Template resolution uses only the first row's routing fields (lines 19-21).
Headers are built per transaction (lines 31-40), line frames per active
template line (lines 41-86), the template identity and run_id are attached
to the concatenated lines (lines 88-94), and the balance check runs last
(lines 97-110).  When no template line is active the source concatenates
nothing and `pl.DataFrame().with_columns(...)` yields a one-row frame
without a je_number column, so a required balance check fails with a
column-not-found error; without the check the model returns the headers
with an empty line list. -/
def expand_transactions (db : TemplateDB) (df_txn : List Txn) (created_by run_id : String) :
    Except ExpandError (List Header × List Line) :=
  match df_txn with
  | [] => .ok ([], [])
  | t0 :: rest =>
    match load_active_template db t0.txn_type t0.product_code t0.channel t0.bank_value_date with
    | .error e => .error e
    | .ok tpl =>
      let headers := (t0 :: rest).map (mkHeader tpl created_by run_id)
      match buildAllLineFrames tpl (t0 :: rest) with
      | .error e => .error e
      | .ok frames =>
        if frames.isEmpty then
          if tpl.control.require_balanced then .error (.columnNotFound ("je_number"))
          else .ok (headers, [])
        else
          let lines := frames.flatten.map (attachTpl tpl run_id)
          match balanceCheckK tpl.control (lines.map keyOf) with
          | .error e => .error e
          | .ok _ => .ok (headers, lines)

/-! ## Specification-side line expansion

Second definition for the refinement claims about engine step 4, following
the specification's words: evaluate the line's amount expression across the
batch, evaluate its attached conditions AND-combined to a boolean mask, keep
only rows where the mask is true, round the amount to the line's precision,
drop rows whose rounded amount is exactly zero.  It shares the expression
semantics `evalP` with the source model; a row whose rounded amount is null
(possible only through a null product/channel reference) is dropped, since
the `!= 0` comparison is never true on null. -/

/-- A row passes the line's conditions when every attached condition
individually evaluates to boolean true. -/
def specKeep (tpl : Template) (rec : TemplateLine) (t : Txn) (v : Val) : Bool :=
  (condsFor tpl rec).all (fun c =>
    decide (evalP (condEnv rec t v) c.cond_expr = .ok (.bool true)))

/-- The specification's description of one active line's expansion. -/
def spec_line_expansion (tpl : Template) (txns : List Txn) (rec : TemplateLine) :
    List LineCore :=
  txns.filterMap (fun t =>
    match evalP (txnEnv t) rec.amount_expr with
    | .error _ => none
    | .ok v =>
      if specKeep tpl rec t v then
        match roundV rec.amount_round v with
        | .ok (.num q) => if q = 0 then none else some (mkLineCore rec t q)
        | _ => none
      else none)

/-! ## Ledger poster (posting.py, `post_to_ledger`)

The ledger store is a record of the permanent header and line tables, the
staging posted-marks and the provisioned partitions.  COPY appends rows
unconditionally (the repository defines no uniqueness constraint for the
ledger tables and posting.py performs no already-posted check); the serial
je_id is modelled as the next row index.  The whole invocation runs in one
transaction, so an error yields no state change, matching `Except`. -/

structure LedgerHeaderRow where
  je_id : Nat
  je_number : String
  je_date : Date
  je_type : String
  source_rowid : String
  template_code : String
  template_version : String
  run_id : String
deriving DecidableEq, Repr

structure LedgerLineRow where
  je_id : Nat
  line_no : Nat
  side : String
  account_code : String
  fund : String
  amount : ℚ
  je_date : Date
deriving DecidableEq, Repr

/-- A staging row's idempotency mark (posted flag by run_id). -/
structure StagingMark where
  run_id : String
  posted : Bool
deriving DecidableEq, Repr

structure LedgerDB where
  headerRows : List LedgerHeaderRow
  lineRows : List LedgerLineRow
  stagingHeaderMarks : List StagingMark
  stagingLineMarks : List StagingMark
  partitions : List Date
deriving DecidableEq, Repr

inductive PostError where
  | nonUniqueRunId
deriving DecidableEq, Repr

/-- First day of the month after (year, month), as relativedelta does. -/
def nextMonthStart (year month : Nat) : Date :=
  if month = 12 then ⟨year + 1, 1, 1⟩ else ⟨year, month + 1, 1⟩

/-- Stable insertion by ascending je_date (the `.sort("je_date")` of
posting.py line 29). -/
def insertByDate (x : LedgerLineRow) : List LedgerLineRow → List LedgerLineRow
  | [] => [x]
  | y :: ys => if Date.lt x.je_date y.je_date then x :: y :: ys else y :: insertByDate x ys

def sortLinesByDate : List LedgerLineRow → List LedgerLineRow
  | [] => []
  | x :: xs => insertByDate x (sortLinesByDate xs)

/-- Model of `post_to_ledger` (posting.py lines 6-44).
Step 1 COPYs all headers into the permanent header table (je_id serial).
Step 2 reads back the je_number → je_id map for every header row of the
period.  Step 3 inner-joins the lines against that map on je_number and
sorts by date.  Step 4 provisions the partition (idempotent create).
Step 5 COPYs the joined lines into the permanent line table.  Step 6 reads
the single run_id of the headers (`unique().item()` raises unless exactly
one) and marks the staging rows posted. -/
def post_to_ledger (headers : List Header) (lines : List Line) (year month : Nat)
    (db : LedgerDB) : Except PostError LedgerDB :=
  let start := Date.mk year month 1
  let stop := nextMonthStart year month
  let newHeaders := (headers.enum).map (fun p =>
    { je_id := db.headerRows.length + p.1
      je_number := p.2.je_number
      je_date := p.2.je_date
      je_type := p.2.je_type
      source_rowid := p.2.source_rowid
      template_code := p.2.template_code
      template_version := p.2.template_version
      run_id := p.2.run_id : LedgerHeaderRow })
  let allHeaders := db.headerRows ++ newHeaders
  let dfMap := (allHeaders.filter (fun r =>
    Date.le start r.je_date && Date.lt r.je_date stop)).map (fun r => (r.je_number, r.je_id))
  let dfLines := sortLinesByDate ((lines.map (fun l =>
    (dfMap.filter (fun m => m.1 = l.je_number)).map (fun m =>
      { je_id := m.2
        line_no := l.line_no
        side := l.side
        account_code := l.account_code
        fund := l.fund
        amount := l.amount
        je_date := l.je_date : LedgerLineRow }))).flatten)
  let parts := if db.partitions.contains start then db.partitions else start :: db.partitions
  match dedupKeys (headers.map (fun h => h.run_id)) with
  | [rid] =>
    .ok { headerRows := allHeaders
          lineRows := db.lineRows ++ dfLines
          stagingHeaderMarks := db.stagingHeaderMarks.map (fun m =>
            if m.run_id = rid then { m with posted := true } else m)
          stagingLineMarks := db.stagingLineMarks.map (fun m =>
            if m.run_id = rid then { m with posted := true } else m)
          partitions := parts }
  | _ => .error .nonUniqueRunId

/-! ## Balance snapshotter (balances.py, `update_month_balance`)

The function's single SQL statement defines a CTE `mvt` aggregating the
posted lines of the period, then runs
`INSERT INTO public.account_balance_snapshot (...) SELECT %s, m.account_code,
m.fund, 0, m.debit, m.credit, (0 + m.debit - m.credit), now() ON CONFLICT
... DO UPDATE ...`.  The statement's name resolution is modelled: which
CTE names are defined, which table aliases the SELECT's FROM clause brings
into scope, and which table aliases the select list references. -/

structure InsertSelectStmt where
  cteNames : List String
  fromAliases : List String
  selectAliasRefs : List String
deriving DecidableEq, Repr

/-- A statement resolves only if every table alias referenced in the select
list is bound by the FROM clause; otherwise PostgreSQL rejects it
(missing FROM-clause entry, SQLSTATE 42P01) before executing anything. -/
def namesResolve (s : InsertSelectStmt) : Bool :=
  s.selectAliasRefs.all (fun a => s.fromAliases.contains a)

/-- The statement of balances.py lines 9-26: the CTE `mvt` is defined, the
select list references the alias `m` in five expressions, and the
INSERT ... SELECT has no FROM clause at all (`FROM mvt m` is missing). -/
def update_month_balance_stmt : InsertSelectStmt :=
  { cteNames := ["mvt"]
    fromAliases := []
    selectAliasRefs := ["m"] }

/-! ## Concrete scenarios used by witnesses and counterexamples -/

/-- A premium template: line 1 debits and line 2 credits the gross amount;
line 1 carries one always-true condition; line 3 is inactive. -/
def tplLine1 : TemplateLine :=
  { line_no := 1, side := "DR", account_code := "1000", fund_code := "F1",
    amount_expr := .col ("gross_amount"), amount_round := 2, is_active := true }

def tplLine2 : TemplateLine :=
  { line_no := 2, side := "CR", account_code := "2000", fund_code := "F1",
    amount_expr := .col ("gross_amount"), amount_round := 2, is_active := true }

def tplLine3 : TemplateLine :=
  { line_no := 3, side := "DR", account_code := "3000", fund_code := "F1",
    amount_expr := .lit 7, amount_round := 2, is_active := false }

def condRow1 : TemplateCond :=
  { line_no := 1, cond_name := "always", cond_expr := .litB true }

def rowA : TemplateRow :=
  { template_code := "TPL-A", template_version := "v1", txn_type := "PREMIUM",
    status := "ACTIVE", effective_date := ⟨2025, 1, 1⟩, expiry_date := ⟨2026, 1, 1⟩ }

def matchA : MatchRow :=
  { match_id := 1, template_code := "TPL-A", template_version := "v1",
    product_code := some ("LIFE01"), channel := none, priority := 10 }

def ctrlA : TemplateControlRow :=
  { template_code := "TPL-A", template_version := "v1",
    control := { require_balanced := true, tolerance_amount := 1 / 100,
                 balancing_mode := "ERROR", balancing_account := none,
                 balancing_fund := none } }

def dbA : TemplateDB :=
  { templates := [rowA]
    matchRows := [matchA]
    lineRows := [⟨"TPL-A", "v1", tplLine1⟩, ⟨"TPL-A", "v1", tplLine2⟩, ⟨"TPL-A", "v1", tplLine3⟩]
    condRows := [⟨"TPL-A", "v1", condRow1⟩]
    controlRows := [ctrlA] }

def txn1 : Txn :=
  { source_rowid := "1", txn_type := "PREMIUM", product_code := some ("LIFE01"),
    channel := some ("AGENCY"), bank_value_date := ⟨2025, 10, 5⟩,
    gross_amount := 100, tabarru_amount := 30, tanahud_amount := 10,
    invest_amount := 50, ujroh_amount := 6, admin_amount := 4 }

def txn2 : Txn :=
  { source_rowid := "2", txn_type := "PREMIUM", product_code := some ("LIFE01"),
    channel := some ("INBRANCH"), bank_value_date := ⟨2025, 10, 9⟩,
    gross_amount := 0, tabarru_amount := 0, tanahud_amount := 0,
    invest_amount := 0, ujroh_amount := 0, admin_amount := 0 }

/-! ## General lemmas -/

theorem pickMin_mem {f : α → ℤ} {l : List α} {m : α} (h : pickMin f l = some m) : m ∈ l := by
  induction l generalizing m with
  | nil => simp [pickMin] at h
  | cons x xs ih =>
    simp only [pickMin] at h
    cases hp : pickMin f xs with
    | none =>
      simp only [hp] at h
      have hm : m = x := by cases h; rfl
      simp [hm]
    | some y =>
      simp only [hp] at h
      by_cases hle : f x ≤ f y
      · rw [if_pos hle] at h
        have hm : m = x := by cases h; rfl
        simp [hm]
      · rw [if_neg hle] at h
        have hm : m = y := by cases h; rfl
        subst hm
        exact List.mem_cons_of_mem x (ih hp)

theorem pickMin_eq_none_iff {f : α → ℤ} {l : List α} : pickMin f l = none ↔ l = [] := by
  cases l with
  | nil => simp [pickMin]
  | cons x xs =>
    simp only [pickMin]
    cases hp : pickMin f xs with
    | none => simp
    | some y => by_cases hle : f x ≤ f y <;> simp [hle]

theorem pickMin_le {f : α → ℤ} {l : List α} {m : α} (h : pickMin f l = some m) :
    ∀ a ∈ l, f m ≤ f a := by
  induction l generalizing m with
  | nil => simp [pickMin] at h
  | cons x xs ih =>
    intro a ha
    simp only [pickMin] at h
    cases hp : pickMin f xs with
    | none =>
      simp only [hp] at h
      have hxs : xs = [] := pickMin_eq_none_iff.mp hp
      subst hxs
      rcases List.mem_singleton.mp ha with rfl
      have hm : m = a := by cases h; rfl
      rw [hm]
    | some y =>
      simp only [hp] at h
      by_cases hle : f x ≤ f y
      · rw [if_pos hle] at h
        have hm : m = x := by cases h; rfl
        subst hm
        rcases List.mem_cons.mp ha with rfl | ha2
        · exact le_refl _
        · exact le_trans hle (ih hp a ha2)
      · rw [if_neg hle] at h
        have hm : m = y := by cases h; rfl
        subst hm
        rcases List.mem_cons.mp ha with rfl | ha2
        · omega
        · exact ih hp a ha2

theorem mem_dedupKeys {l : List String} {a : String} : a ∈ dedupKeys l ↔ a ∈ l := by
  induction l with
  | nil => simp [dedupKeys]
  | cons x xs ih =>
    simp only [dedupKeys]
    by_cases hc : x ∈ dedupKeys xs
    · simp only [hc, if_true, List.mem_cons]
      constructor
      · intro h; exact Or.inr (ih.mp h)
      · rintro (rfl | h)
        · exact hc
        · exact ih.mpr h
    · simp only [hc, if_false, List.mem_cons, ih]

theorem le_foldl_max_init (l : List ℚ) (a : ℚ) : a ≤ l.foldl max a := by
  induction l generalizing a with
  | nil => simp
  | cons x xs ih => exact le_trans (le_max_left a x) (ih (max a x))

theorem le_foldl_max_of_mem {l : List ℚ} {x : ℚ} (h : x ∈ l) (a : ℚ) : x ≤ l.foldl max a := by
  induction l generalizing a with
  | nil => simp at h
  | cons y ys ih =>
    rcases List.mem_cons.mp h with rfl | h2
    · exact le_trans (le_max_right a x) (le_foldl_max_init ys (max a x))
    · exact ih h2 (max a y)

theorem exMap_ok_forall2 {f : α → Except ExpandError β} {l : List α} {ys : List β}
    (h : exMap f l = .ok ys) : List.Forall₂ (fun a y => f a = .ok y) l ys := by
  induction l generalizing ys with
  | nil => simp only [exMap] at h; cases h; exact List.Forall₂.nil
  | cons a l ih =>
    simp only [exMap] at h
    cases hfa : f a with
    | error e => rw [hfa] at h; cases h
    | ok b =>
      rw [hfa] at h
      cases hrest : exMap f l with
      | error e => rw [hrest] at h; cases h
      | ok bs =>
        rw [hrest] at h
        cases h
        exact List.Forall₂.cons hfa (ih hrest)

theorem forall2_eq_map {g : α → β} {l : List α} {ys : List β}
    (h : List.Forall₂ (fun a y => y = g a) l ys) : ys = l.map g := by
  induction h with
  | nil => rfl
  | cons h1 _ ih => simp [List.map, h1, ih]

/-- The `&` combination is boolean-true exactly when both operands are. -/
theorem evalP_pand_true_iff (env : String → Option Val) (a b : PExpr) :
    evalP env (PExpr.pand a b) = .ok (.bool true) ↔
      (evalP env a = .ok (.bool true) ∧ evalP env b = .ok (.bool true)) := by
  simp only [evalP]
  cases ha : evalP env a with
  | error e => simp [Bind.bind, Except.bind]
  | ok va =>
    cases hb : evalP env b with
    | error e =>
      simp only [Bind.bind, Except.bind]
      cases va <;> simp [andV]
    | ok vb =>
      simp only [Bind.bind, Except.bind]
      cases va <;> cases vb <;> simp [andV]

/-- Evaluating the AND-fold of engine.py lines 78-80 yields boolean true
exactly when every condition in the chain individually evaluates to boolean
true. -/
theorem evalP_foldAnd_true_iff (env : String → Option Val) (c : TemplateCond)
    (rest : List TemplateCond) :
    evalP env (foldAnd c rest) = .ok (.bool true) ↔
      ∀ x ∈ c :: rest, evalP env x.cond_expr = .ok (.bool true) := by
  have main : ∀ (cs : List TemplateCond) (acc : PExpr),
      evalP env (cs.foldl (fun a x => PExpr.pand a x.cond_expr) acc) = .ok (.bool true) ↔
        (evalP env acc = .ok (.bool true) ∧
          ∀ x ∈ cs, evalP env x.cond_expr = .ok (.bool true)) := by
    intro cs
    induction cs with
    | nil => intro acc; simp
    | cons y ys ih =>
      intro acc
      simp only [List.foldl_cons]
      rw [ih, evalP_pand_true_iff]
      constructor
      · rintro ⟨⟨h1, h2⟩, h3⟩
        refine ⟨h1, ?_⟩
        intro x hx
        rcases List.mem_cons.mp hx with rfl | hx2
        · exact h2
        · exact h3 x hx2
      · rintro ⟨h1, h2⟩
        exact ⟨⟨h1, h2 y (List.mem_cons_self y ys)⟩, fun x hx => h2 x (List.mem_cons_of_mem y hx)⟩
  rw [foldAnd, main rest c.cond_expr]
  constructor
  · rintro ⟨h1, h2⟩
    intro x hx
    rcases List.mem_cons.mp hx with rfl | hx2
    · exact h1
    · exact h2 x hx2
  · intro h
    exact ⟨h c (List.mem_cons_self c rest), fun x hx => h x (List.mem_cons_of_mem c hx)⟩

/-- The `== True` filter keeps a row exactly when the mask value is boolean
true. -/
theorem eqTrueLit_ok_true_iff {v : Val} : eqTrueLit v = .ok true ↔ v = .bool true := by
  cases v <;> simp [eqTrueLit]

theorem exceptMap_ok {ε α β : Type} {f : α → β} {a : α} :
    Except.map f (Except.ok a : Except ε α) = .ok (f a) := rfl

theorem exceptMap_error {ε α β : Type} {f : α → β} {e : ε} :
    Except.map f (Except.error e : Except ε α) = .error e := rfl

theorem exMap_cons {f : α → Except ExpandError β} {a : α} {l : List α} :
    exMap f (a :: l) =
      match f a with
      | .error e => .error e
      | .ok b =>
        match exMap f l with
        | .error e => .error e
        | .ok bs => .ok (b :: bs) := rfl

/-- With the conditions of the line being `c :: rest`, the source's mask test
succeeds with `true` exactly when `specKeep` holds. -/
theorem mask_true_iff_specKeep {tpl : Template} {rec : TemplateLine} {t : Txn} {v : Val}
    {c : TemplateCond} {rest : List TemplateCond} (hcs : condsFor tpl rec = c :: rest) :
    (evalP (condEnv rec t v) (foldAnd c rest)).bind eqTrueLit = .ok true ↔
      specKeep tpl rec t v = true := by
  rw [specKeep, hcs]
  cases hm : evalP (condEnv rec t v) (foldAnd c rest) with
  | error e =>
    simp only [Except.bind]
    constructor
    · intro hfalse
      exact Except.noConfusion hfalse
    · intro hall
      exfalso
      simp only [List.all_eq_true, decide_eq_true_eq] at hall
      have hfold := (evalP_foldAnd_true_iff (condEnv rec t v) c rest).mpr hall
      rw [hm] at hfold
      exact Except.noConfusion hfold
  | ok mv =>
    simp only [Except.bind]
    rw [eqTrueLit_ok_true_iff]
    constructor
    · rintro rfl
      have hfold := (evalP_foldAnd_true_iff (condEnv rec t v) c rest).mp hm
      simp only [List.all_eq_true, decide_eq_true_eq]
      exact hfold
    · intro hall
      simp only [List.all_eq_true, decide_eq_true_eq] at hall
      have hfold := (evalP_foldAnd_true_iff (condEnv rec t v) c rest).mpr hall
      rw [hm] at hfold
      cases hfold
      rfl

/-- Core refinement fact for the engine's per-line pipeline: whenever the
source's staged computation (amount column, mask filter, rounding, zero
drop) succeeds, its result is exactly the specification's description of
step 4. -/
theorem nonZeroV_num_zero : nonZeroV (.num 0) = false := by
  simp [nonZeroV]

theorem nonZeroV_num_of_ne {q : ℚ} (h : ¬ q = 0) : nonZeroV (.num q) = true := by
  simp [nonZeroV, h]

theorem nonZeroV_null : nonZeroV .null = false := rfl

theorem amtQ_num {q : ℚ} : amtQ (.num q) = q := rfl

theorem buildLineFrame_ok_eq {tpl : Template} {rec : TemplateLine} :
    ∀ {txns : List Txn} {F : List LineCore},
      buildLineFrame tpl txns rec = .ok F → F = spec_line_expansion tpl txns rec := by
  intro txns
  induction txns with
  | nil =>
    intro F h
    cases hcs : condsFor tpl rec with
    | nil =>
      simp only [buildLineFrame, exMap, condFilter, hcs, List.filter_nil, List.map_nil] at h
      cases h
      simp [spec_line_expansion]
    | cons c rest =>
      simp only [buildLineFrame, exMap, condFilter, hcs, List.filter_nil, List.map_nil] at h
      cases h
      simp [spec_line_expansion]
  | cons t ts ih =>
    intro F h
    rw [buildLineFrame] at h
    cases hv : evalP (txnEnv t) rec.amount_expr with
    | error e =>
      simp only [exMap_cons, hv, exceptMap_error] at h
      exact Except.noConfusion h
    | ok v =>
      simp only [exMap_cons, hv, exceptMap_ok] at h
      cases hrest : exMap (fun t =>
          (evalP (txnEnv t) rec.amount_expr).map (fun v => (t, v))) ts with
      | error e =>
        rw [hrest] at h
        exact Except.noConfusion h
      | ok base_ts =>
        rw [hrest] at h
        cases hcs : condsFor tpl rec with
        | nil =>
          simp only [condFilter, hcs] at h
          cases hr : roundV rec.amount_round v with
          | error e =>
            simp only [exMap_cons, hr, exceptMap_error] at h
            exact Except.noConfusion h
          | ok rv =>
            simp only [exMap_cons, hr, exceptMap_ok] at h
            cases hrts : exMap (fun tv =>
                (roundV rec.amount_round tv.2).map (fun v => (tv.1, v))) base_ts with
            | error e =>
              rw [hrts] at h
              exact Except.noConfusion h
            | ok rounded_ts =>
              rw [hrts] at h
              have hts : buildLineFrame tpl ts rec =
                  .ok ((rounded_ts.filter (fun tv => nonZeroV tv.2)).map
                    (fun tv => mkLineCore rec tv.1 (amtQ tv.2))) := by
                simp only [buildLineFrame, hrest, condFilter, hcs, hrts]
              have hspec_ts := ih hts
              cases h
              have hkeep : specKeep tpl rec t v = true := by
                rw [specKeep, hcs]
                rfl
              simp only [spec_line_expansion, List.filterMap_cons, hv, hkeep, if_pos rfl]
              rw [← spec_line_expansion]
              cases v with
              | num q =>
                simp only [roundV] at hr
                cases hr
                simp only [roundV]
                by_cases hz : roundTo rec.amount_round q = 0
                · rw [hz]
                  simp only [List.filter_cons, nonZeroV_num_zero, Bool.false_eq_true, if_false,
                    eq_self_iff_true, if_true]
                  exact hspec_ts
                · simp only [List.filter_cons, nonZeroV_num_of_ne hz, List.map_cons, amtQ_num,
                    if_neg hz, eq_self_iff_true, if_true]
                  rw [hspec_ts]
              | null =>
                simp only [roundV] at hr
                cases hr
                simp only [List.filter_cons, nonZeroV_null, Bool.false_eq_true, if_false, roundV]
                exact hspec_ts
              | str s =>
                exact Except.noConfusion (show (Except.error ExpandError.typeMismatch :
                  Except ExpandError Val) = .ok rv from hr)
              | bool b =>
                exact Except.noConfusion (show (Except.error ExpandError.typeMismatch :
                  Except ExpandError Val) = .ok rv from hr)
              | vdate d =>
                exact Except.noConfusion (show (Except.error ExpandError.typeMismatch :
                  Except ExpandError Val) = .ok rv from hr)
        | cons c rest =>
          simp only [condFilter, hcs] at h
          cases hm : (evalP (condEnv rec t v) (foldAnd c rest)).bind eqTrueLit with
          | error e =>
            simp only [exMap_cons, hm, exceptMap_error] at h
            exact Except.noConfusion h
          | ok b =>
            simp only [exMap_cons, hm, exceptMap_ok] at h
            cases hmts : exMap (fun tv =>
                ((evalP (condEnv rec tv.1 tv.2) (foldAnd c rest)).bind eqTrueLit).map
                  (fun b => (tv, b))) base_ts with
            | error e =>
              rw [hmts] at h
              exact Except.noConfusion h
            | ok masked_ts =>
              rw [hmts] at h
              have hts_pre : buildLineFrame tpl ts rec =
                  match exMap (fun tv =>
                      (roundV rec.amount_round tv.2).map (fun v => (tv.1, v)))
                      ((masked_ts.filter (fun x => x.2)).map (fun x => x.1)) with
                  | .error e => .error e
                  | .ok rounded =>
                      .ok ((rounded.filter (fun tv => nonZeroV tv.2)).map
                        (fun tv => mkLineCore rec tv.1 (amtQ tv.2))) := by
                simp only [buildLineFrame, hrest, condFilter, hcs, hmts]
              cases b with
              | true =>
                simp only [List.filter_cons, eq_self_iff_true, if_true, List.map_cons] at h
                cases hr : roundV rec.amount_round v with
                | error e =>
                  simp only [exMap_cons, hr, exceptMap_error] at h
                  exact Except.noConfusion h
                | ok rv =>
                  simp only [exMap_cons, hr, exceptMap_ok] at h
                  cases hrK : exMap (fun tv =>
                      (roundV rec.amount_round tv.2).map (fun v => (tv.1, v)))
                      ((masked_ts.filter (fun x => x.2)).map (fun x => x.1)) with
                  | error e =>
                    rw [hrK] at h
                    exact Except.noConfusion h
                  | ok rounded_K =>
                    rw [hrK] at h
                    rw [hrK] at hts_pre
                    have hspec_ts := ih hts_pre
                    cases h
                    have hkeep : specKeep tpl rec t v = true :=
                      (mask_true_iff_specKeep hcs).mp hm
                    simp only [spec_line_expansion, List.filterMap_cons, hv, hkeep, if_pos rfl]
                    rw [← spec_line_expansion]
                    cases v with
                    | num q =>
                      simp only [roundV] at hr
                      cases hr
                      simp only [roundV]
                      by_cases hz : roundTo rec.amount_round q = 0
                      · rw [hz]
                        simp only [List.filter_cons, nonZeroV_num_zero, Bool.false_eq_true,
                          if_false, eq_self_iff_true, if_true]
                        exact hspec_ts
                      · simp only [List.filter_cons, nonZeroV_num_of_ne hz, List.map_cons,
                          amtQ_num, if_neg hz, eq_self_iff_true, if_true]
                        rw [hspec_ts]
                    | null =>
                      simp only [roundV] at hr
                      cases hr
                      simp only [List.filter_cons, nonZeroV_null, Bool.false_eq_true, if_false,
                        roundV]
                      exact hspec_ts
                    | str s =>
                      exact Except.noConfusion (show (Except.error ExpandError.typeMismatch :
                        Except ExpandError Val) = .ok rv from hr)
                    | bool b0 =>
                      exact Except.noConfusion (show (Except.error ExpandError.typeMismatch :
                        Except ExpandError Val) = .ok rv from hr)
                    | vdate d =>
                      exact Except.noConfusion (show (Except.error ExpandError.typeMismatch :
                        Except ExpandError Val) = .ok rv from hr)
              | false =>
                simp only [List.filter_cons, Bool.false_eq_true, if_false] at h
                cases hrK : exMap (fun tv =>
                    (roundV rec.amount_round tv.2).map (fun v => (tv.1, v)))
                    ((masked_ts.filter (fun x => x.2)).map (fun x => x.1)) with
                | error e =>
                  rw [hrK] at h
                  exact Except.noConfusion h
                | ok rounded_K =>
                  rw [hrK] at h
                  rw [hrK] at hts_pre
                  have hspec_ts := ih hts_pre
                  cases h
                  have hkeep : specKeep tpl rec t v = false := by
                    by_contra hcon
                    have htrue : specKeep tpl rec t v = true := by
                      cases hsk : specKeep tpl rec t v
                      · exact absurd hsk hcon
                      · rfl
                    have hmm := (mask_true_iff_specKeep hcs).mpr htrue
                    rw [hm] at hmm
                    cases hmm
                  simp only [spec_line_expansion, List.filterMap_cons, hv, hkeep,
                    Bool.false_eq_true, if_false]
                  rw [← spec_line_expansion]
                  exact hspec_ts

/-- Characters that are not whitespace survive a dropWhile on whitespace. -/
theorem mem_dropWhile_of_not_ws {c : Char} {l : List Char} (h : c ∈ l)
    (hw : c.isWhitespace = false) : c ∈ l.dropWhile Char.isWhitespace := by
  induction l with
  | nil => simp at h
  | cons a l ih =>
    rcases List.mem_cons.mp h with rfl | h2
    · rw [List.dropWhile_cons]
      by_cases ha : c.isWhitespace
      · rw [hw] at ha; exact absurd ha (by simp)
      · simp only [ha, if_false]
        exact List.mem_cons_self c l
    · rw [List.dropWhile_cons]
      by_cases ha : a.isWhitespace
      · simp only [ha, if_true]
        exact ih h2
      · simp only [ha, if_false]
        exact List.mem_cons_of_mem a h2

/-- Characters outside the whitespace class survive the Python strip. -/
theorem mem_pyStrip {c : Char} {s : String} (h : c ∈ s.data)
    (hw : c.isWhitespace = false) : c ∈ (pyStrip s).data := by
  rw [pyStrip]
  refine List.mem_reverse.mpr (mem_dropWhile_of_not_ws (List.mem_reverse.mpr ?_) hw)
  exact mem_dropWhile_of_not_ws h hw

/-- A character outside the allow-list is in particular not whitespace. -/
theorem not_ws_of_not_allowed {c : Char} (h : allowedChar c = false) :
    c.isWhitespace = false := by
  by_cases hw : c.isWhitespace
  · rw [allowedChar] at h
    simp [hw] at h
  · simp [hw]

/-- The tie-break order of the specification: ascending priority, then a
non-wildcard product match, then a non-wildcard channel match. -/
def wildFlag (o : Option String) : ℤ :=
  if o.isNone then 1 else 0

def tieBreakLE (m1 m2 : MatchRow) : Prop :=
  m1.priority < m2.priority ∨
    (m1.priority = m2.priority ∧
      (wildFlag m1.product_code < wildFlag m2.product_code ∨
        (wildFlag m1.product_code = wildFlag m2.product_code ∧
          wildFlag m1.channel ≤ wildFlag m2.channel)))

/-- The integer ORDER BY key encodes exactly the lexicographic tie-break. -/
theorem orderKey_le_iff {a b : TemplateRow × MatchRow} :
    orderKey a ≤ orderKey b ↔ tieBreakLE a.2 b.2 := by
  rcases hpa : a.2.product_code with _ | pa <;> rcases hca : a.2.channel with _ | ca <;>
    rcases hpb : b.2.product_code with _ | pb <;> rcases hcb : b.2.channel with _ | cb <;>
      simp only [orderKey, tieBreakLE, wildFlag, hpa, hca, hpb, hcb, Option.isNone_none,
        Option.isNone_some, eq_self_iff_true, if_true, if_false, Bool.false_eq_true,
        true_and, and_true] <;>
        omega

/-- A successful required balance check bounds every header difference. -/
theorem balanceCheckK_ok_bound {ctrl : TemplateControl}
    {keys : List (String × String × ℚ)} (h : balanceCheckK ctrl keys = .ok ())
    (hreq : ctrl.require_balanced = true) :
    ∀ je ∈ keys.map (fun k => k.1), |jeDiffK keys je| ≤ ctrl.tolerance_amount := by
  intro je hje
  have hne : (!keys.isEmpty) = true := by
    cases keys with
    | nil => simp at hje
    | cons a l => rfl
  rw [balanceCheckK, hreq, hne] at h
  simp only [Bool.and_self, if_true] at h
  by_cases hdr : "DR" ∈ keys.map (fun k => k.2.1)
  · rw [if_neg (not_not_intro hdr)] at h
    by_cases hcr : "CR" ∈ keys.map (fun k => k.2.1)
    · rw [if_neg (not_not_intro hcr)] at h
      by_cases hlt : ctrl.tolerance_amount < maxAbsDiff keys
      · rw [if_pos hlt] at h
        exact Except.noConfusion h
      · have hmax : maxAbsDiff keys ≤ ctrl.tolerance_amount := le_of_not_lt hlt
        refine le_trans ?_ hmax
        rw [maxAbsDiff]
        have hje2 : je ∈ dedupKeys (keys.map (fun k => k.1)) := mem_dedupKeys.mpr hje
        have hmem : |jeDiffK keys je| ∈
            (dedupKeys (keys.map (fun k => k.1))).map (fun je => |jeDiffK keys je|) :=
          List.mem_map_of_mem _ hje2
        have hb := le_foldl_max_of_mem hmem 0
        have hnn : (0 : ℚ) ≤
            ((dedupKeys (keys.map (fun k => k.1))).map
              (fun je => |jeDiffK keys je|)).foldl max 0 :=
          le_foldl_max_init _ 0
        rw [abs_of_nonneg hnn]
        exact hb
    · rw [if_pos hcr] at h
      exact Except.noConfusion h
  · rw [if_pos hdr] at h
    exact Except.noConfusion h

/-- When some header difference exceeds the tolerance, a required balance
check fails; with both sides present among the lines the failure is the
unbalanced-journal error. -/
theorem balanceCheckK_err {ctrl : TemplateControl} {keys : List (String × String × ℚ)}
    (hreq : ctrl.require_balanced = true) {je : String}
    (hje : je ∈ keys.map (fun k => k.1))
    (hgt : ctrl.tolerance_amount < |jeDiffK keys je|) :
    ∃ e, balanceCheckK ctrl keys = .error e ∧
      (("DR" ∈ keys.map (fun k => k.2.1) ∧ "CR" ∈ keys.map (fun k => k.2.1)) →
        e = .unbalancedJournal) := by
  have hne : (!keys.isEmpty) = true := by
    cases keys with
    | nil => simp at hje
    | cons a l => rfl
  rw [balanceCheckK, hreq, hne]
  simp only [Bool.and_self, if_true]
  by_cases hdr : "DR" ∈ keys.map (fun k => k.2.1)
  · rw [if_neg (not_not_intro hdr)]
    by_cases hcr : "CR" ∈ keys.map (fun k => k.2.1)
    · rw [if_neg (not_not_intro hcr)]
      have hmax : ctrl.tolerance_amount < maxAbsDiff keys := by
        refine lt_of_lt_of_le hgt ?_
        rw [maxAbsDiff]
        have hje2 : je ∈ dedupKeys (keys.map (fun k => k.1)) := mem_dedupKeys.mpr hje
        have hmem : |jeDiffK keys je| ∈
            (dedupKeys (keys.map (fun k => k.1))).map (fun je => |jeDiffK keys je|) :=
          List.mem_map_of_mem _ hje2
        have hb := le_foldl_max_of_mem hmem 0
        have hnn : (0 : ℚ) ≤
            ((dedupKeys (keys.map (fun k => k.1))).map
              (fun je => |jeDiffK keys je|)).foldl max 0 :=
          le_foldl_max_init _ 0
        rw [abs_of_nonneg hnn]
        exact hb
      rw [if_pos hmax]
      exact ⟨.unbalancedJournal, rfl, fun _ => rfl⟩
    · rw [if_pos hcr]
      exact ⟨.columnNotFound ("CR"), rfl, fun hboth => absurd hboth.2 hcr⟩
  · rw [if_pos hdr]
    exact ⟨.columnNotFound ("DR"), rfl, fun hboth => absurd hboth.1 hdr⟩

/-! ## Claim theorems -/

/-- Shared helper: an expression containing any character outside the
allow-list is rejected by `to_polars` with the illegal-expression error. -/
theorem to_polars_illegal_of_bad_char {s : String} {cols : List String} {c : Char}
    (hc : c ∈ s.data) (hbad : allowedChar c = false) :
    to_polars s cols = .error .illegalExpression := by
  have hmem : c ∈ (pyStrip s).data := mem_pyStrip hc (not_ws_of_not_allowed hbad)
  have hall : (pyStrip s).data.all allowedChar = false := by
    rw [List.all_eq_false]
    exact ⟨c, hmem, by rw [hbad]; simp⟩
  have hco : charsOk (pyStrip s).data = false := by
    rw [charsOk, hall]
    simp
  rw [to_polars]
  simp only [hco, Bool.not_false, if_true]

/-- C2: compilation fails with IllegalExpressionError whenever the string
contains a character outside the allowed set, and — when the characters pass
— fails with UnknownFieldError whenever a sigil token names a field outside
`df_cols`; in both cases `to_polars` returns an error, so no compiled
expression exists and nothing is ever evaluated against transaction data
(evaluation only happens in the engine, on successfully compiled
expressions). -/
theorem compile_time_rejection (s : String) (cols : List String) :
    ((∃ c ∈ s.data, allowedChar c = false) →
       to_polars s cols = .error .illegalExpression) ∧
    (charsOk (pyStrip s).data = true →
       (∃ n ∈ findTokens (pyStrip s).data, n ∉ cols) →
       ∃ n, n ∉ cols ∧ to_polars s cols = .error (.unknownField n)) := by
  constructor
  · rintro ⟨c, hc, hbad⟩
    exact to_polars_illegal_of_bad_char hc hbad
  · rintro hok ⟨n, hn, hnc⟩
    have hsome : ((findTokens (pyStrip s).data).find? (fun n => !cols.contains n)).isSome := by
      rw [List.find?_isSome]
      refine ⟨n, hn, ?_⟩
      cases hb : cols.contains n with
      | false => rfl
      | true => exact absurd (List.elem_iff.mp hb) hnc
    rcases Option.isSome_iff_exists.mp hsome with ⟨m, hm⟩
    have hmpred := List.find?_some hm
    refine ⟨m, ?_, ?_⟩
    · intro hmem
      have : cols.contains m = true := List.elem_iff.mpr hmem
      rw [this] at hmpred
      exact Bool.noConfusion hmpred
    · rw [to_polars]
      simp only [hok, Bool.not_true, Bool.false_eq_true, if_false, hm]

/-- Witness for C2: a concrete injection attempt (the specification's
example 4) is rejected for its illegal characters, and a concrete unknown
field reference is rejected at compile time. -/
theorem compile_time_rejection_witness :
    to_polars ":gross_amount; DROP TABLE x" ["gross_amount"] = .error .illegalExpression ∧
    (∃ n, n ∉ ["bar"] ∧ to_polars ":foo + 1" ["bar"] = .error (.unknownField n)) := by
  constructor
  · exact (compile_time_rejection (":gross_amount; DROP TABLE x") (["gross_amount"])).1
      ⟨';', by decide, by decide⟩
  · exact (compile_time_rejection (":foo + 1") (["bar"])).2 (by decide)
      ⟨"foo", by decide, by decide⟩

/-- C3: the expression sublanguage is NOT closed — evidence for the code
bug.  The string "9**9" passes every check of `to_polars` unchanged (the
returned code string is handed to the Python `eval` builtin, which computes
the exponentiation 9 ** 9 = 387420489 and returns it, so compilation
accepts the input), yet the specification's closed grammar rejects it:
exponentiation is outside the grammar.  The source's own comment (expr.py
line 16, "Minimal safe parser: no eval") is contradicted by the `eval` call
on line 47. -/
theorem eval_grammar_escape :
    to_polars "9**9" ["gross_amount"] = .ok "9**9" ∧
    specGrammarAccepts "9**9" ["gross_amount"] = false := by
  constructor
  · decide
  · decide

/-- Counterexample to C7 as stated: a condition expression using a
comparison operator does not compile to a boolean column — it is rejected
outright, because the character allow-list of the shared compiler contains
no comparison characters. -/
theorem condition_comparison_rejected :
    to_polars ":channel > 0" ["channel"] = .error .illegalExpression := by
  decide

/-- C7 amended: condition expressions go through exactly the same compiler
and grammar as amount expressions — there is no extension with comparison
operators; any condition containing one of the comparison characters is
rejected with IllegalExpressionError.  What does hold is the AND
combination: the mask built by the engine from several conditions is
boolean-true exactly when every attached condition evaluates to boolean
true. -/
theorem condition_compile_amended :
    (∀ (s : String) (cols : List String) (c : Char), c ∈ s.data →
       (c = '<' ∨ c = '>' ∨ c = '=' ∨ c = '!') →
       to_polars s cols = .error .illegalExpression) ∧
    (∀ (env : String → Option Val) (c : TemplateCond) (rest : List TemplateCond),
       evalP env (foldAnd c rest) = .ok (.bool true) ↔
         ∀ x ∈ c :: rest, evalP env x.cond_expr = .ok (.bool true)) := by
  constructor
  · intro s cols c hc hcomp
    have hbad : allowedChar c = false := by
      rcases hcomp with rfl | rfl | rfl | rfl <;> decide
    exact to_polars_illegal_of_bad_char hc hbad
  · intro env c rest
    exact evalP_foldAnd_true_iff env c rest

/-- Witness for the amended C7 at concrete inputs: an equality-comparison
condition is rejected, and the AND-fold equivalence instantiated at a
concrete condition list. -/
theorem condition_compile_amended_witness :
    to_polars ":x = 1" ["x"] = .error .illegalExpression ∧
    (evalP (txnEnv txn1) (foldAnd condRow1 []) = .ok (.bool true) ↔
      ∀ x ∈ [condRow1], evalP (txnEnv txn1) x.cond_expr = .ok (.bool true)) := by
  constructor
  · exact condition_compile_amended.1 (":x = 1") (["x"]) '='
      (by decide) (Or.inr (Or.inr (Or.inl rfl)))
  · exact condition_compile_amended.2 (txnEnv txn1) condRow1 []

/-- C9: evidence for the code bug in the balance snapshotter.  The INSERT
... SELECT of balances.py references the alias `m` in its select list but
has no FROM clause binding it (the `FROM mvt m` is missing), so the
statement fails name resolution; PostgreSQL rejects it with "missing
FROM-clause entry for table m" (SQLSTATE 42P01) on every invocation, and no
snapshot row is ever aggregated or upserted. -/
theorem balances_sql_name_resolution_fails :
    namesResolve update_month_balance_stmt = false := by
  decide

/-- C8: template resolution returns a template only when its row passes the
matching filter (exact txn_type, ACTIVE status, effective_date <= as_of <
expiry_date, product and channel exact-or-wildcard), and the winner is
minimal in the ORDER BY tie-break (ascending priority, then non-wildcard
product, then non-wildcard channel; the first row wins ties); when nothing
matches, resolution fails with NoActiveTemplateError. -/
theorem template_resolution_correct (db : TemplateDB) (tt : String)
    (p ch : Option String) (d : Date) :
    (load_active_template db tt p ch d = .error .noActiveTemplate ↔
      matchesFor db tt p ch d = []) ∧
    (∀ tpl, load_active_template db tt p ch d = .ok tpl →
      ∃ r ∈ matchesFor db tt p ch d,
        tpl.template_code = r.1.template_code ∧
        tpl.template_version = r.1.template_version ∧
        r.1.txn_type = tt ∧ r.1.status = "ACTIVE" ∧
        Date.le r.1.effective_date d = true ∧ Date.lt d r.1.expiry_date = true ∧
        (sqlEqStr r.2.product_code p = true ∨ r.2.product_code = none) ∧
        (sqlEqStr r.2.channel ch = true ∨ r.2.channel = none) ∧
        (∀ r2 ∈ matchesFor db tt p ch d, tieBreakLE r.2 r2.2)) := by
  constructor
  · constructor
    · intro herr
      rw [load_active_template] at herr
      cases hp : pickMin orderKey (matchesFor db tt p ch d) with
      | none => exact pickMin_eq_none_iff.mp hp
      | some r =>
        rw [hp] at herr
        exact Except.noConfusion herr
    · intro hnil
      rw [load_active_template, hnil]
      rfl
  · intro tpl htpl
    rw [load_active_template] at htpl
    cases hp : pickMin orderKey (matchesFor db tt p ch d) with
    | none =>
      rw [hp] at htpl
      exact Except.noConfusion htpl
    | some r =>
      rw [hp] at htpl
      cases htpl
      have hmem := pickMin_mem hp
      have hfilter := hmem
      rw [matchesFor] at hfilter
      have hpred := (List.mem_filter.mp hfilter).2
      rw [matchPred] at hpred
      simp only [Bool.and_eq_true, Bool.or_eq_true, decide_eq_true_eq,
        Option.isNone_iff_eq_none] at hpred
      refine ⟨r, hmem, rfl, rfl, hpred.1.1.1.1.1, hpred.1.1.1.1.2, hpred.1.1.1.2,
        hpred.1.1.2, ?_, ?_, ?_⟩
      · rcases hpred.1.2 with hx | hx
        · exact Or.inl hx
        · exact Or.inr hx
      · rcases hpred.2 with hx | hx
        · exact Or.inl hx
        · exact Or.inr hx
      · intro r2 hr2
        exact orderKey_le_iff.mp (pickMin_le hp r2 hr2)

theorem keys_fst (L : List Line) :
    (L.map keyOf).map (fun k => k.1) = L.map Line.je_number := by
  rw [List.map_map]
  rfl

theorem keys_side (L : List Line) :
    (L.map keyOf).map (fun k => k.2.1) = L.map Line.side := by
  rw [List.map_map]
  rfl

/-- C10: a non-empty batch resolves exactly one template, from the first
row's routing fields only, and every emitted header and line carries that
template's code and version and the single run_id — regardless of what
other rows of the batch would have resolved to. -/
theorem expansion_uses_first_row_template (db : TemplateDB) (t0 : Txn) (rest : List Txn)
    (cb rid : String) (H : List Header) (L : List Line)
    (hok : expand_transactions db (t0 :: rest) cb rid = .ok (H, L)) :
    ∃ tpl, load_active_template db t0.txn_type t0.product_code t0.channel t0.bank_value_date
        = .ok tpl ∧
      H.length = (t0 :: rest).length ∧
      (∀ h ∈ H, h.template_code = tpl.template_code ∧
        h.template_version = tpl.template_version ∧ h.run_id = rid ∧ h.created_by = cb) ∧
      (∀ l ∈ L, l.template_code = tpl.template_code ∧
        l.template_version = tpl.template_version ∧ l.run_id = rid) := by
  rw [expand_transactions] at hok
  cases hload : load_active_template db t0.txn_type t0.product_code t0.channel
      t0.bank_value_date with
  | error e =>
    rw [hload] at hok
    exact Except.noConfusion hok
  | ok tpl =>
    simp only [hload] at hok
    refine ⟨tpl, rfl, ?_⟩
    cases hba : buildAllLineFrames tpl (t0 :: rest) with
    | error e =>
      simp only [hba] at hok
      exact Except.noConfusion hok
    | ok frames =>
      simp only [hba] at hok
      cases hef : frames.isEmpty with
      | true =>
        simp only [hef, if_true] at hok
        cases hreq : tpl.control.require_balanced with
        | true =>
          rw [hreq, if_pos rfl] at hok
          exact Except.noConfusion hok
        | false =>
          rw [hreq] at hok
          simp only [Bool.false_eq_true, if_false] at hok
          cases hok
          refine ⟨by simp, ?_, ?_⟩
          · intro h hh
            rcases List.mem_map.mp hh with ⟨t, _, rfl⟩
            exact ⟨rfl, rfl, rfl, rfl⟩
          · intro l hl
            simp at hl
      | false =>
        simp only [hef, Bool.false_eq_true, if_false] at hok
        cases hbc : balanceCheckK tpl.control
            ((frames.flatten.map (attachTpl tpl rid)).map keyOf) with
        | error e =>
          simp only [hbc] at hok
          exact Except.noConfusion hok
        | ok u =>
          cases u
          simp only [hbc] at hok
          cases hok
          refine ⟨by simp, ?_, ?_⟩
          · intro h hh
            rcases List.mem_map.mp hh with ⟨t, _, rfl⟩
            exact ⟨rfl, rfl, rfl, rfl⟩
          · intro l hl
            rcases List.mem_map.mp hl with ⟨c, _, rfl⟩
            exact ⟨rfl, rfl, rfl⟩

/-- C5: expansion is deterministic modulo the run identifier — two runs of
the same batch against the same template store yield identical header
numbers and identical line amounts, and every header number is the pure
function "JE-" ++ yyyymm(period) ++ "-" ++ source_rowid of its transaction. -/
theorem expansion_deterministic_modulo_run_id (db : TemplateDB) (txns : List Txn)
    (cb r1 r2 : String) (H1 H2 : List Header) (L1 L2 : List Line)
    (h1 : expand_transactions db txns cb r1 = .ok (H1, L1))
    (h2 : expand_transactions db txns cb r2 = .ok (H2, L2)) :
    H1.map Header.je_number = H2.map Header.je_number ∧
    L1.map Line.amount = L2.map Line.amount ∧
    ∀ h ∈ H1, h.je_number = "JE-" ++ yyyymm h.je_date ++ "-" ++ h.source_rowid := by
  cases txns with
  | nil =>
    rw [expand_transactions] at h1 h2
    cases h1
    cases h2
    exact ⟨rfl, rfl, by simp⟩
  | cons t0 rest =>
    rw [expand_transactions] at h1 h2
    cases hload : load_active_template db t0.txn_type t0.product_code t0.channel
        t0.bank_value_date with
    | error e =>
      rw [hload] at h1
      exact Except.noConfusion h1
    | ok tpl =>
      simp only [hload] at h1 h2
      cases hba : buildAllLineFrames tpl (t0 :: rest) with
      | error e =>
        simp only [hba] at h1
        exact Except.noConfusion h1
      | ok frames =>
        simp only [hba] at h1 h2
        cases hef : frames.isEmpty with
        | true =>
          simp only [hef, if_true] at h1 h2
          cases hreq : tpl.control.require_balanced with
          | true =>
            rw [hreq, if_pos rfl] at h1
            exact Except.noConfusion h1
          | false =>
            rw [hreq] at h1 h2
            simp only [Bool.false_eq_true, if_false] at h1 h2
            cases h1
            cases h2
            refine ⟨?_, rfl, ?_⟩
            · rw [List.map_map, List.map_map]
              rfl
            · intro h hh
              rcases List.mem_map.mp hh with ⟨t, _, rfl⟩
              rfl
        | false =>
          simp only [hef, Bool.false_eq_true, if_false] at h1 h2
          have hkeys : (frames.flatten.map (attachTpl tpl r2)).map keyOf
              = (frames.flatten.map (attachTpl tpl r1)).map keyOf := by
            rw [List.map_map, List.map_map]
            rfl
          cases hbc : balanceCheckK tpl.control
              ((frames.flatten.map (attachTpl tpl r1)).map keyOf) with
          | error e =>
            simp only [hbc] at h1
            exact Except.noConfusion h1
          | ok u =>
            cases u
            have hbc2 : balanceCheckK tpl.control
                ((frames.flatten.map (attachTpl tpl r2)).map keyOf) = .ok () := by
              rw [hkeys]
              exact hbc
            simp only [hbc] at h1
            simp only [hbc2] at h2
            cases h1
            cases h2
            refine ⟨?_, ?_, ?_⟩
            · rw [List.map_map, List.map_map]
              rfl
            · rw [List.map_map, List.map_map]
              rfl
            · intro h hh
              rcases List.mem_map.mp hh with ⟨t, _, rfl⟩
              rfl

/-- C6: for successful expansions, the emitted line set is exactly the
specification's per-line pipeline — for each active template line, keep the
batch rows whose AND-combined conditions evaluate true, round each kept
amount to the line's precision, drop rows whose rounded amount is exactly
zero — concatenated over the active lines and tagged with the template and
run identifiers.  Inactive lines and rows dropped here also never reach the
balance check, which is computed from this very line set. -/
theorem expansion_line_filtering (db : TemplateDB) (t0 : Txn) (rest : List Txn)
    (cb rid : String) (tpl : Template) (H : List Header) (L : List Line)
    (hload : load_active_template db t0.txn_type t0.product_code t0.channel
      t0.bank_value_date = .ok tpl)
    (hok : expand_transactions db (t0 :: rest) cb rid = .ok (H, L)) :
    L = ((tpl.lines.filter (fun r => r.is_active)).map
        (fun rec => spec_line_expansion tpl (t0 :: rest) rec)).flatten.map
          (attachTpl tpl rid) := by
  rw [expand_transactions] at hok
  simp only [hload] at hok
  cases hba : buildAllLineFrames tpl (t0 :: rest) with
  | error e =>
    simp only [hba] at hok
    exact Except.noConfusion hok
  | ok frames =>
    simp only [hba] at hok
    rw [buildAllLineFrames] at hba
    have hf2 := exMap_ok_forall2 hba
    have hfeq : List.Forall₂ (fun rec F => F = spec_line_expansion tpl (t0 :: rest) rec)
        (tpl.lines.filter (fun r => r.is_active)) frames := by
      refine hf2.imp ?_
      intro rec F hF
      exact buildLineFrame_ok_eq hF
    have hframes := forall2_eq_map hfeq
    cases hef : frames.isEmpty with
    | true =>
      simp only [hef, if_true] at hok
      cases hreq : tpl.control.require_balanced with
      | true =>
        rw [hreq, if_pos rfl] at hok
        exact Except.noConfusion hok
      | false =>
        rw [hreq] at hok
        simp only [Bool.false_eq_true, if_false] at hok
        cases hok
        have hnil : frames = [] := by
          cases frames with
          | nil => rfl
          | cons a l => simp [List.isEmpty] at hef
        rw [← hframes, hnil]
        simp
    | false =>
      simp only [hef, Bool.false_eq_true, if_false] at hok
      cases hbc : balanceCheckK tpl.control
          ((frames.flatten.map (attachTpl tpl rid)).map keyOf) with
      | error e =>
        simp only [hbc] at hok
        exact Except.noConfusion hok
      | ok u =>
        cases u
        simp only [hbc] at hok
        cases hok
        rw [hframes]

/-- C1 amended: with a required balance check, (a) whenever expansion
returns, every header's absolute debit/credit difference over the emitted
lines is within the tolerance; (b) whenever the emitted line set has a
header difference beyond the tolerance, expansion aborts with an error and
emits nothing — the UnbalancedJournalError when both sides occur among the
emitted lines, and a column-not-found error when one side is entirely
absent (the check pivots on the side values actually present). -/
theorem balance_validation_amended (db : TemplateDB) (t0 : Txn) (rest : List Txn)
    (cb rid : String) (tpl : Template)
    (hload : load_active_template db t0.txn_type t0.product_code t0.channel
      t0.bank_value_date = .ok tpl)
    (hreq : tpl.control.require_balanced = true) :
    (∀ H L, expand_transactions db (t0 :: rest) cb rid = .ok (H, L) →
       ∀ je ∈ L.map Line.je_number,
         |jeDiffK (L.map keyOf) je| ≤ tpl.control.tolerance_amount) ∧
    (∀ frames, buildAllLineFrames tpl (t0 :: rest) = .ok frames → frames.isEmpty = false →
       ∀ lines, lines = frames.flatten.map (attachTpl tpl rid) →
       (∃ je ∈ lines.map Line.je_number,
          tpl.control.tolerance_amount < |jeDiffK (lines.map keyOf) je|) →
       ∃ e, expand_transactions db (t0 :: rest) cb rid = .error e ∧
         (("DR" ∈ lines.map Line.side ∧ "CR" ∈ lines.map Line.side) →
           e = .unbalancedJournal)) := by
  constructor
  · intro H L hok je hje
    rw [expand_transactions] at hok
    simp only [hload] at hok
    cases hba : buildAllLineFrames tpl (t0 :: rest) with
    | error e =>
      simp only [hba] at hok
      exact Except.noConfusion hok
    | ok frames =>
      simp only [hba] at hok
      cases hef : frames.isEmpty with
      | true =>
        simp only [hef, if_true, hreq, if_pos rfl] at hok
        exact Except.noConfusion hok
      | false =>
        simp only [hef, Bool.false_eq_true, if_false] at hok
        cases hbc : balanceCheckK tpl.control
            ((frames.flatten.map (attachTpl tpl rid)).map keyOf) with
        | error e =>
          simp only [hbc] at hok
          exact Except.noConfusion hok
        | ok u =>
          cases u
          simp only [hbc] at hok
          cases hok
          have hb := balanceCheckK_ok_bound hbc hreq
          refine hb je ?_
          rw [keys_fst]
          exact hje
  · rintro frames hba hef lines hlines ⟨je, hje, hgt⟩
    subst hlines
    have hje2 : je ∈ ((frames.flatten.map (attachTpl tpl rid)).map keyOf).map
        (fun k => k.1) := by
      rw [keys_fst]
      exact hje
    obtain ⟨e, herr, himp⟩ := balanceCheckK_err hreq hje2 hgt
    refine ⟨e, ?_, ?_⟩
    · rw [expand_transactions]
      simp only [hload, hba, hef, Bool.false_eq_true, if_false, herr]
    · intro hboth
      refine himp ⟨?_, ?_⟩
      · rw [keys_side]
        exact hboth.1
      · rw [keys_side]
        exact hboth.2

/-- C4 amended: `post_to_ledger` performs no already-posted check — every
successful invocation appends all given headers to the permanent header
table again, so re-invoking it with an already-posted run_id is not a
no-op: the headers are inserted a second time (and the staged lines join
against every header row of the period with a matching number, multiplying
the inserted lines).  The repository defines no uniqueness constraint that
would prevent this. -/
theorem posting_always_appends_headers (headers : List Header) (lines : List Line)
    (year month : Nat) (db db2 : LedgerDB)
    (h : post_to_ledger headers lines year month db = .ok db2) :
    db2.headerRows.length = db.headerRows.length + headers.length := by
  rw [post_to_ledger] at h
  cases hdk : dedupKeys (headers.map (fun h => h.run_id)) with
  | nil =>
    simp only [hdk] at h
    exact Except.noConfusion h
  | cons rid rest =>
    cases rest with
    | nil =>
      simp only [hdk] at h
      cases h
      simp
    | cons r2 rest2 =>
      simp only [hdk] at h
      exact Except.noConfusion h

/-! Additional concrete scenarios. -/

/-- A template whose only active line is one credit of 100: the emitted
line set is one-sided, so the balance check's pivot never creates a DR
column.  It has no control row, so the default control applies
(require_balanced = true, tolerance 0.01). -/
def tplLineC : TemplateLine :=
  { line_no := 1, side := "CR", account_code := "2000", fund_code := "F1",
    amount_expr := .lit 100, amount_round := 2, is_active := true }

def rowC : TemplateRow :=
  { template_code := "TPL-C", template_version := "v1", txn_type := "PREMIUM",
    status := "ACTIVE", effective_date := ⟨2025, 1, 1⟩, expiry_date := ⟨2026, 1, 1⟩ }

def matchC : MatchRow :=
  { match_id := 3, template_code := "TPL-C", template_version := "v1",
    product_code := none, channel := none, priority := 1 }

def dbC1 : TemplateDB :=
  { templates := [rowC], matchRows := [matchC],
    lineRows := [⟨"TPL-C", "v1", tplLineC⟩], condRows := [], controlRows := [] }

/-- A template debiting the gross amount and crediting a flat 50: clearly
unbalanced for a transaction of gross 100. -/
def tplLineU1 : TemplateLine :=
  { line_no := 1, side := "DR", account_code := "1000", fund_code := "F1",
    amount_expr := .col ("gross_amount"), amount_round := 2, is_active := true }

def tplLineU2 : TemplateLine :=
  { line_no := 2, side := "CR", account_code := "2000", fund_code := "F1",
    amount_expr := .lit 50, amount_round := 2, is_active := true }

def rowU : TemplateRow :=
  { template_code := "TPL-U", template_version := "v1", txn_type := "PREMIUM",
    status := "ACTIVE", effective_date := ⟨2025, 1, 1⟩, expiry_date := ⟨2026, 1, 1⟩ }

def matchU : MatchRow :=
  { match_id := 4, template_code := "TPL-U", template_version := "v1",
    product_code := none, channel := none, priority := 1 }

def dbU : TemplateDB :=
  { templates := [rowU], matchRows := [matchU],
    lineRows := [⟨"TPL-U", "v1", tplLineU1⟩, ⟨"TPL-U", "v1", tplLineU2⟩],
    condRows := [], controlRows := [] }

/-- A second template matching product FAM01 with better priority, for the
routing scenario of C10. -/
def rowB : TemplateRow :=
  { template_code := "TPL-B", template_version := "v1", txn_type := "PREMIUM",
    status := "ACTIVE", effective_date := ⟨2025, 1, 1⟩, expiry_date := ⟨2026, 1, 1⟩ }

def matchB : MatchRow :=
  { match_id := 2, template_code := "TPL-B", template_version := "v1",
    product_code := some ("FAM01"), channel := none, priority := 5 }

def dbTwo : TemplateDB :=
  { templates := [rowA, rowB], matchRows := [matchA, matchB],
    lineRows := [⟨"TPL-A", "v1", tplLine1⟩, ⟨"TPL-A", "v1", tplLine2⟩,
      ⟨"TPL-B", "v1", tplLine1⟩, ⟨"TPL-B", "v1", tplLine2⟩],
    condRows := [], controlRows := [ctrlA] }

/-- A FAM01 transaction; alone it would resolve TPL-B, but in a batch
headed by a LIFE01 row the whole batch uses TPL-A. -/
def txnF : Txn :=
  { source_rowid := "3", txn_type := "PREMIUM", product_code := some ("FAM01"),
    channel := some ("AGENCY"), bank_value_date := ⟨2025, 10, 7⟩,
    gross_amount := 200, tabarru_amount := 60, tanahud_amount := 20,
    invest_amount := 100, ujroh_amount := 12, admin_amount := 8 }

def hdr1 : Header :=
  { je_number := "JE-202510-1", je_date := ⟨2025, 10, 5⟩, je_type := "JE",
    source_rowid := "1", template_code := "TPL-A", template_version := "v1",
    run_id := "rX", created_by := "u" }

def lin1 : Line :=
  { je_number := "JE-202510-1", line_no := 1, side := "DR", account_code := "1000",
    fund := "F1", amount := 100, product_code := some ("LIFE01"),
    channel := some ("AGENCY"), je_date := ⟨2025, 10, 5⟩, template_code := "TPL-A",
    template_version := "v1", run_id := "rX" }

def emptyLedger : LedgerDB :=
  { headerRows := [], lineRows := [],
    stagingHeaderMarks := [{ run_id := "rX", posted := false }],
    stagingLineMarks := [{ run_id := "rX", posted := false }], partitions := [] }

def postedOnce : LedgerDB :=
  { headerRows := [{ je_id := 0, je_number := "JE-202510-1", je_date := ⟨2025, 10, 5⟩,
                     je_type := "JE", source_rowid := "1", template_code := "TPL-A",
                     template_version := "v1", run_id := "rX" }],
    lineRows := [{ je_id := 0, line_no := 1, side := "DR", account_code := "1000",
                   fund := "F1", amount := 100, je_date := ⟨2025, 10, 5⟩ }],
    stagingHeaderMarks := [{ run_id := "rX", posted := true }],
    stagingLineMarks := [{ run_id := "rX", posted := true }],
    partitions := [⟨2025, 10, 1⟩] }

def postedTwice : LedgerDB :=
  { headerRows := [{ je_id := 0, je_number := "JE-202510-1", je_date := ⟨2025, 10, 5⟩,
                     je_type := "JE", source_rowid := "1", template_code := "TPL-A",
                     template_version := "v1", run_id := "rX" },
                   { je_id := 1, je_number := "JE-202510-1", je_date := ⟨2025, 10, 5⟩,
                     je_type := "JE", source_rowid := "1", template_code := "TPL-A",
                     template_version := "v1", run_id := "rX" }],
    lineRows := [{ je_id := 0, line_no := 1, side := "DR", account_code := "1000",
                   fund := "F1", amount := 100, je_date := ⟨2025, 10, 5⟩ },
                 { je_id := 1, line_no := 1, side := "DR", account_code := "1000",
                   fund := "F1", amount := 100, je_date := ⟨2025, 10, 5⟩ },
                 { je_id := 0, line_no := 1, side := "DR", account_code := "1000",
                   fund := "F1", amount := 100, je_date := ⟨2025, 10, 5⟩ }],
    stagingHeaderMarks := [{ run_id := "rX", posted := true }],
    stagingLineMarks := [{ run_id := "rX", posted := true }],
    partitions := [⟨2025, 10, 1⟩] }

set_option maxRecDepth 8000 in
/-- Counterexample for C4: posting the same headers and lines twice is not
a no-op — the second call appends the header again (two rows with the same
header number) and, joining the staged line against both period headers,
appends two more line rows (three in total). -/
theorem posting_repost_duplicates :
    post_to_ledger [hdr1] [lin1] 2025 10 emptyLedger = .ok postedOnce ∧
    post_to_ledger [hdr1] [lin1] 2025 10 postedOnce = .ok postedTwice ∧
    postedTwice.headerRows.length = 2 ∧ postedTwice.lineRows.length = 3 ∧
    (postedTwice.headerRows.map (fun r => r.je_number)) =
      ["JE-202510-1", "JE-202510-1"] := by
  refine ⟨?_, ?_, rfl, rfl, rfl⟩
  · with_unfolding_all rfl
  · with_unfolding_all rfl

/-- Witness for the amended C4: the first posting appends exactly the given
headers to the permanent header table. -/
theorem posting_always_appends_headers_witness :
    postedOnce.headerRows.length = emptyLedger.headerRows.length + [hdr1].length :=
  posting_always_appends_headers [hdr1] [lin1] 2025 10 emptyLedger postedOnce
    (by with_unfolding_all rfl)

/-- The headers of the dbA scenario for run rA. -/
def hListA1 : List Header :=
  [{ je_number := "JE-202510-1", je_date := ⟨2025, 10, 5⟩, je_type := "JE",
     source_rowid := "1", template_code := "TPL-A", template_version := "v1",
     run_id := "rA", created_by := "u" },
   { je_number := "JE-202510-2", je_date := ⟨2025, 10, 9⟩, je_type := "JE",
     source_rowid := "2", template_code := "TPL-A", template_version := "v1",
     run_id := "rA", created_by := "u" }]

/-- The lines of the dbA scenario for run rA: txn2 has gross 0 and is
dropped by zero suppression. -/
def lListA1 : List Line :=
  [{ je_number := "JE-202510-1", line_no := 1, side := "DR", account_code := "1000",
     fund := "F1", amount := 100, product_code := some ("LIFE01"),
     channel := some ("AGENCY"), je_date := ⟨2025, 10, 5⟩, template_code := "TPL-A",
     template_version := "v1", run_id := "rA" },
   { je_number := "JE-202510-1", line_no := 2, side := "CR", account_code := "2000",
     fund := "F1", amount := 100, product_code := some ("LIFE01"),
     channel := some ("AGENCY"), je_date := ⟨2025, 10, 5⟩, template_code := "TPL-A",
     template_version := "v1", run_id := "rA" }]

def hListA2 : List Header :=
  [{ je_number := "JE-202510-1", je_date := ⟨2025, 10, 5⟩, je_type := "JE",
     source_rowid := "1", template_code := "TPL-A", template_version := "v1",
     run_id := "rB", created_by := "u" },
   { je_number := "JE-202510-2", je_date := ⟨2025, 10, 9⟩, je_type := "JE",
     source_rowid := "2", template_code := "TPL-A", template_version := "v1",
     run_id := "rB", created_by := "u" }]

def lListA2 : List Line :=
  [{ je_number := "JE-202510-1", line_no := 1, side := "DR", account_code := "1000",
     fund := "F1", amount := 100, product_code := some ("LIFE01"),
     channel := some ("AGENCY"), je_date := ⟨2025, 10, 5⟩, template_code := "TPL-A",
     template_version := "v1", run_id := "rB" },
   { je_number := "JE-202510-1", line_no := 2, side := "CR", account_code := "2000",
     fund := "F1", amount := 100, product_code := some ("LIFE01"),
     channel := some ("AGENCY"), je_date := ⟨2025, 10, 5⟩, template_code := "TPL-A",
     template_version := "v1", run_id := "rB" }]

/-- Witness for C5 at the dbA scenario: two runs with different run
identifiers produce the same header numbers and the same amounts, and the
header numbers are the deterministic function of period and source row. -/
theorem expansion_deterministic_witness :
    hListA1.map Header.je_number = hListA2.map Header.je_number ∧
    lListA1.map Line.amount = lListA2.map Line.amount ∧
    ∀ h ∈ hListA1, h.je_number = "JE-" ++ yyyymm h.je_date ++ "-" ++ h.source_rowid :=
  expansion_deterministic_modulo_run_id dbA [txn1, txn2] "u" "rA" "rB"
    hListA1 hListA2 lListA1 lListA2
    (by with_unfolding_all rfl) (by with_unfolding_all rfl)

/-- Witness for C6 at the dbA scenario (condition attached to line 1,
inactive line 3, zero-amount transaction dropped). -/
theorem expansion_line_filtering_witness :
    lListA1 = (((bundleFor dbA ("TPL-A") ("v1")).lines.filter (fun r => r.is_active)).map
        (fun rec => spec_line_expansion (bundleFor dbA ("TPL-A") ("v1")) [txn1, txn2] rec)).flatten.map
          (attachTpl (bundleFor dbA ("TPL-A") ("v1")) "rA") :=
  expansion_line_filtering dbA txn1 [txn2] "u" "rA" (bundleFor dbA ("TPL-A") ("v1"))
    hListA1 lListA1 (by with_unfolding_all rfl) (by with_unfolding_all rfl)

/-- Witness for C10: a mixed batch headed by a LIFE01 row expands entirely
under TPL-A although the FAM01 row alone would have resolved TPL-B. -/
def hListT : List Header :=
  [{ je_number := "JE-202510-1", je_date := ⟨2025, 10, 5⟩, je_type := "JE",
     source_rowid := "1", template_code := "TPL-A", template_version := "v1",
     run_id := "r7", created_by := "u" },
   { je_number := "JE-202510-3", je_date := ⟨2025, 10, 7⟩, je_type := "JE",
     source_rowid := "3", template_code := "TPL-A", template_version := "v1",
     run_id := "r7", created_by := "u" }]

def lListT : List Line :=
  [{ je_number := "JE-202510-1", line_no := 1, side := "DR", account_code := "1000",
     fund := "F1", amount := 100, product_code := some ("LIFE01"),
     channel := some ("AGENCY"), je_date := ⟨2025, 10, 5⟩, template_code := "TPL-A",
     template_version := "v1", run_id := "r7" },
   { je_number := "JE-202510-3", line_no := 1, side := "DR", account_code := "1000",
     fund := "F1", amount := 200, product_code := some ("FAM01"),
     channel := some ("AGENCY"), je_date := ⟨2025, 10, 7⟩, template_code := "TPL-A",
     template_version := "v1", run_id := "r7" },
   { je_number := "JE-202510-1", line_no := 2, side := "CR", account_code := "2000",
     fund := "F1", amount := 100, product_code := some ("LIFE01"),
     channel := some ("AGENCY"), je_date := ⟨2025, 10, 5⟩, template_code := "TPL-A",
     template_version := "v1", run_id := "r7" },
   { je_number := "JE-202510-3", line_no := 2, side := "CR", account_code := "2000",
     fund := "F1", amount := 200, product_code := some ("FAM01"),
     channel := some ("AGENCY"), je_date := ⟨2025, 10, 7⟩, template_code := "TPL-A",
     template_version := "v1", run_id := "r7" }]

theorem expansion_uses_first_row_template_witness :
    ∃ tpl, load_active_template dbTwo txn1.txn_type txn1.product_code txn1.channel
        txn1.bank_value_date = .ok tpl ∧
      hListT.length = ([txn1, txnF] : List Txn).length ∧
      (∀ h ∈ hListT, h.template_code = tpl.template_code ∧
        h.template_version = tpl.template_version ∧ h.run_id = "r7" ∧ h.created_by = "u") ∧
      (∀ l ∈ lListT, l.template_code = tpl.template_code ∧
        l.template_version = tpl.template_version ∧ l.run_id = "r7") :=
  expansion_uses_first_row_template dbTwo txn1 [txnF] "u" "r7" hListT lListT
    (by with_unfolding_all rfl)

/-- Witness for C8 at the dbA scenario. -/
theorem template_resolution_correct_witness :
    ∃ r ∈ matchesFor dbA "PREMIUM" (some ("LIFE01")) (some ("AGENCY")) ⟨2025, 10, 5⟩,
      (bundleFor dbA ("TPL-A") ("v1")).template_code = r.1.template_code ∧
      (bundleFor dbA ("TPL-A") ("v1")).template_version = r.1.template_version ∧
      r.1.txn_type = "PREMIUM" ∧ r.1.status = "ACTIVE" ∧
      Date.le r.1.effective_date ⟨2025, 10, 5⟩ = true ∧
      Date.lt ⟨2025, 10, 5⟩ r.1.expiry_date = true ∧
      (sqlEqStr r.2.product_code (some ("LIFE01")) = true ∨ r.2.product_code = none) ∧
      (sqlEqStr r.2.channel (some ("AGENCY")) = true ∨ r.2.channel = none) ∧
      (∀ r2 ∈ matchesFor dbA "PREMIUM" (some ("LIFE01")) (some ("AGENCY")) ⟨2025, 10, 5⟩,
        tieBreakLE r.2 r2.2) :=
  (template_resolution_correct dbA "PREMIUM" (some ("LIFE01")) (some ("AGENCY"))
    ⟨2025, 10, 5⟩).2 (bundleFor dbA ("TPL-A") ("v1")) (by with_unfolding_all rfl)

/-- Counterexample for C1 as stated: with the default control (balancing
required, tolerance 0.01) and a template emitting a single one-sided credit
line of 100, the header difference 100 far exceeds the tolerance, yet
expansion does not raise the unbalanced-journal error — the balance check's
pivot has no DR column and the run aborts with a column-not-found error
instead (still emitting nothing). -/
theorem balance_validation_counterexample :
    expand_transactions dbC1 [txn1] "u" "r" = .error (.columnNotFound ("DR")) ∧
    (.error (.columnNotFound ("DR")) : Except ExpandError (List Header × List Line)) ≠
      .error .unbalancedJournal ∧
    buildAllLineFrames (bundleFor dbC1 ("TPL-C") ("v1")) [txn1] =
      .ok [[{ je_number := "JE-202510-1", line_no := 1, side := "CR",
              account_code := "2000", fund := "F1", amount := 100,
              product_code := some ("LIFE01"), channel := some ("AGENCY"),
              je_date := ⟨2025, 10, 5⟩ }]] ∧
    (bundleFor dbC1 ("TPL-C") ("v1")).control.require_balanced = true ∧
    (bundleFor dbC1 ("TPL-C") ("v1")).control.tolerance_amount = 1 / 100 := by
  refine ⟨?_, ?_, ?_, ?_, ?_⟩
  · with_unfolding_all rfl
  · decide
  · with_unfolding_all rfl
  · with_unfolding_all rfl
  · with_unfolding_all rfl

def framesU : List (List LineCore) :=
  [[{ je_number := "JE-202510-1", line_no := 1, side := "DR", account_code := "1000",
      fund := "F1", amount := 100, product_code := some ("LIFE01"),
      channel := some ("AGENCY"), je_date := ⟨2025, 10, 5⟩ }],
   [{ je_number := "JE-202510-1", line_no := 2, side := "CR", account_code := "2000",
      fund := "F1", amount := 50, product_code := some ("LIFE01"),
      channel := some ("AGENCY"), je_date := ⟨2025, 10, 5⟩ }]]

def linesU : List Line :=
  framesU.flatten.map (attachTpl (bundleFor dbU ("TPL-U") ("v1")) "rU")

/-- Witness for the amended C1: at the balanced dbA scenario the bound
holds for the (only) emitted header, and at the unbalanced dbU scenario
(debit 100 against credit 50, tolerance 0.01, both sides present) the run
aborts with the unbalanced-journal error. -/
theorem balance_validation_amended_witness :
    |jeDiffK (lListA1.map keyOf) "JE-202510-1"| ≤
      (bundleFor dbA ("TPL-A") ("v1")).control.tolerance_amount ∧
    (∃ e, expand_transactions dbU [txn1] "u" "rU" = .error e ∧
      (("DR" ∈ linesU.map Line.side ∧ "CR" ∈ linesU.map Line.side) →
        e = .unbalancedJournal)) := by
  constructor
  · refine (balance_validation_amended dbA txn1 [txn2] "u" "rA"
      (bundleFor dbA ("TPL-A") ("v1")) (by with_unfolding_all rfl)
      (by with_unfolding_all rfl)).1 hListA1 lListA1 (by with_unfolding_all rfl)
      "JE-202510-1" (by simp [lListA1])
  · refine (balance_validation_amended dbU txn1 [] "u" "rU"
      (bundleFor dbU ("TPL-U") ("v1")) (by with_unfolding_all rfl)
      (by with_unfolding_all rfl)).2 framesU (by with_unfolding_all rfl) rfl
      linesU rfl ⟨"JE-202510-1", ?_, ?_⟩
    · simp [linesU, framesU, attachTpl]
    · have heq : jeDiffK (linesU.map keyOf) ("JE-202510-1") = 50 := by
        with_unfolding_all rfl
      have htol : (bundleFor dbU ("TPL-U") ("v1")).control.tolerance_amount = 1 / 100 := by
        with_unfolding_all rfl
      rw [heq, htol]
      norm_num

end Revamp
